import Mathlib

/- Shallow embedding of the UdemyTrainings quality-gated pipeline:
   the 7-dimension quality scorer (src/scripts/qualityEngine.js), the 4-gate
   validation chain (src/scripts/qualityGates.js) and the pipeline
   orchestrator (src/scripts/courseOrchestrator.js).

   Modelling conventions:
   - JavaScript numbers are modelled as exact rationals (`ℚ`); `Math.round`
     is modelled as `⌊q + 1/2⌋`, which agrees with JS `Math.round` on the
     nonnegative values arising here.  Inside the executable definitions each
     rational comparison/rounding is written in the equivalent cross-multiplied
     natural-number form (the doc comment of each definition quotes the JS
     expression, and bridge lemmas below prove the `ℚ` form equal).
   - One computation is sensitive to IEEE-754 double rounding and is modelled
     bit-exactly: the overall score's reduce over the 7 weighted dimension
     scores.  Every double arising there is either 0 or has binary exponent
     in [-5, 6], hence is an integer multiple of `2^-57`, so doubles are
     carried as `2^57`-scaled naturals and each multiplication/addition
     rounds its exact result to the nearest double, ties to even
     (`nearestDoubleScaled`, `fpMul`, `fpAdd`, `overallFloat`).
   - JS strings are modelled as `String` / `List Char`; `toLowerCase`,
     `includes`, `startsWith` and the word-boundary regexes of the source are
     implemented over character lists.  Every regex used by the source is
     either a plain alternation of literal substrings or `\b<word>\b` with a
     pattern that starts and ends in a word character, so the boundary test
     reduces to inspecting the neighbouring characters.
   - Optional / possibly-missing JS fields are `Option`; JS truthiness on a
     string field is `some s` with `s ≠ ""`.
   - The filesystem (`fs.existsSync`) is an explicit oracle
     `String → Bool`, and each external collaborator of the orchestrator is
     an explicit `Except String _` input. -/

/-- JS Math.round on the nonnegative rationals produced by the scorer. -/
def jsRound (q : ℚ) : ℤ := ⌊q + 1/2⌋

/-- Math.round landing back in ℕ (all scores here are nonnegative). -/
def jsRoundNat (q : ℚ) : ℕ := (jsRound q).toNat

/-- `Math.round((pts / max) * 100)` in exact integer arithmetic:
    `⌊100·pts/max + 1/2⌋ = (200·pts + max) / (2·max)` for `max > 0`
    (`rubricScore_eq_jsRound` below). -/
def rubricScore (pts maxP : ℕ) : ℕ := (200 * pts + maxP) / (2 * maxP)

/-- JS `s.toLowerCase()`, restricted to the ASCII texts used here. -/
def lowerChars (s : String) : List Char := s.toList.map Char.toLower

/-- JS `hay.includes(needle)` on an already-lowercased character list. -/
def strIncludes (needle : String) (hay : List Char) : Bool :=
  let p := needle.toList
  (List.range (hay.length + 1)).any (fun i => p.isPrefixOf (hay.drop i))

/-- JS `/p1|p2|…/.test(hay)` where every alternative is a literal substring. -/
def anyIncluded (pats : List String) (hay : List Char) : Bool :=
  pats.any (fun p => strIncludes p hay)

/-- JS regex `\w` character class. -/
def isWordChar (c : Char) : Bool := c.isAlphanum || c == '_'

/-- Number of matches of the global JS regex `\b<pat>\b` in `text`, for a
    pattern whose first and last characters are word characters (true of
    every such pattern in the source: the fillers, and `you`).  A match at
    position `i` then requires the characters just before and just after the
    occurrence (when they exist) to be non-word characters; such matches can
    never overlap, so counting positions equals the JS global-match count. -/
def countWordMatches (pat : String) (text : List Char) : ℕ :=
  let p := pat.toList
  ((List.range text.length).filter (fun i =>
    p.isPrefixOf (text.drop i)
    && (i == 0 || !isWordChar (text.getD (i - 1) ' '))
    && (text.length ≤ i + p.length || !isWordChar (text.getD (i + p.length) ' ')))).length

/-- JS `text.split(/\s+/).filter(w => w).length`: the number of maximal
    whitespace-free tokens. -/
def wordCount (text : List Char) : ℕ :=
  (text.foldl
    (fun (acc : ℕ × Bool) c =>
      if c.isWhitespace then (acc.1, false)
      else if acc.2 then acc else (acc.1 + 1, true))
    (0, false)).1

/-- JS truthiness of an optional string field (`undefined`, `''` falsy). -/
def strTruthy : Option String → Bool
  | some s => s ≠ ""
  | none => false

/- ═══════════ Data model (§3 of the spec; shapes read off the source) ═══ -/

structure Slide where
  visualType : Option String := none
  speakerNotes : Option String := none
deriving DecidableEq, Repr

structure MainPoint where
  content : Option String := none
deriving DecidableEq, Repr

structure LectureScript where
  opening : Option String := none
  mainContent : Option (List MainPoint) := none
  summary : Option String := none
  callToAction : Option String := none
deriving DecidableEq, Repr

structure Lecture where
  script : Option LectureScript := none
  slides : Option (List Slide) := none
  duration : Option ℕ := none
deriving DecidableEq, Repr

structure QuizQuestion where
  qtype : Option String := none
  explanation : Option String := none
  difficulty : Option String := none
deriving DecidableEq, Repr

structure Quiz where
  questions : Option (List QuizQuestion) := none
deriving DecidableEq, Repr

structure CourseSection where
  title : Option String := none
  lectures : Option (List Lecture) := none
  quiz : Option Quiz := none
deriving DecidableEq, Repr

structure Assignment where
  requirements : Option (List String) := none
  deliverables : Option (List String) := none
deriving DecidableEq, Repr

structure Assessment where
  finalQuiz : Option Quiz := none
  practicalAssignment : Option Assignment := none
deriving DecidableEq, Repr

structure CheatSheet where
  sections : Option (List String) := none
deriving DecidableEq, Repr

structure CourseMetadata where
  title : Option String := none
  description : Option String := none
  objectives : Option (List String) := none
deriving DecidableEq, Repr

structure Content where
  metadata : Option CourseMetadata := none
  sections : Option (List CourseSection) := none
  assessment : Option Assessment := none
  cheatSheet : Option CheatSheet := none
deriving DecidableEq, Repr

/-- `content.sections || []`. -/
def Content.sectionsD (c : Content) : List CourseSection := c.sections.getD []

/-- `sections.flatMap(s => s.lectures || [])`. -/
def allLectures (c : Content) : List Lecture :=
  c.sectionsD.flatMap (fun s => s.lectures.getD [])

/-- `sections.reduce((s, sec) => s + (sec.lectures?.length || 0), 0)` —
    the total-lecture count used by the retry loop, Gate 1 and Gate 2. -/
def lectureCount (c : Content) : ℕ :=
  c.sectionsD.foldl (fun s sec => s + (sec.lectures.getD []).length) 0

/-- `content.metadata?.description || ''`. -/
def Content.descriptionD (c : Content) : String :=
  (c.metadata.bind CourseMetadata.description).getD ""

/-- `content.metadata?.objectives || []`. -/
def Content.objectivesD (c : Content) : List String :=
  (c.metadata.bind CourseMetadata.objectives).getD []

/-- qualityEngine.js `extractScriptText` (the Gate-2 copy additionally drops
    `callToAction`; see `extractScriptTextGates`).  JS pushes a part only
    when the field is truthy, and `m.content || ''` defaults each main point. -/
def extractScriptText (l : Lecture) : List Char :=
  let parts : List String :=
    (if strTruthy (l.script.bind LectureScript.opening) then
       [(l.script.bind LectureScript.opening).getD ""] else [])
    ++ ((l.script.bind LectureScript.mainContent).getD []).map
         (fun m => m.content.getD "")
    ++ (if strTruthy (l.script.bind LectureScript.summary) then
          [(l.script.bind LectureScript.summary).getD ""] else [])
    ++ (if strTruthy (l.script.bind LectureScript.callToAction) then
          [(l.script.bind LectureScript.callToAction).getD ""] else [])
  (String.intercalate " " parts).toList

/- ═══════════ qualityEngine.js — thresholds, weights, 7 dimension scorers ═ -/

def THRESHOLD_TARGET : ℕ := 95

def THRESHOLD_ACCEPTABLE : ℕ := 90

def THRESHOLD_MINIMUM : ℕ := 85

structure WeightsT where
  accuracy : ℚ
  learningObjectives : ℚ
  contentStructure : ℚ
  practicalApplication : ℚ
  assessmentQuality : ℚ
  productionCompleteness : ℚ
  engagementClarity : ℚ
deriving DecidableEq, Repr

def WEIGHTS : WeightsT :=
  { accuracy := 0.25, learningObjectives := 0.15, contentStructure := 0.15
    practicalApplication := 0.20, assessmentQuality := 0.10
    productionCompleteness := 0.10, engagementClarity := 0.05 }

structure DimResult where
  score : ℕ
  passed : List String := []
  issues : List String := []
deriving DecidableEq, Repr

/-- `extractScriptText(l).toLowerCase()` as used by every scorer. -/
def lectureTextLower (l : Lecture) : List Char :=
  (extractScriptText l).map Char.toLower

/- ── scoreAccuracy ──────────────────────────────────────────────────────── -/

def specPatterns : List String :=
  ["might be", "probably", "i think", "maybe", "perhaps", "supposedly"]

/-- One increment per (lecture, pattern) pair whose text contains the pattern. -/
def speculativeCount (c : Content) : ℕ :=
  (allLectures c).foldl
    (fun acc l => acc + (specPatterns.filter (fun p => strIncludes p (lectureTextLower l))).length) 0

def accPtsSpeculative (c : Content) : ℕ :=
  let s := speculativeCount c
  if s = 0 then 30 else if s ≤ 3 then 22 else 10

/-- `(content.metadata?.description || '').toLowerCase().includes('ai')`. -/
def hasAIDisclosure (c : Content) : Bool :=
  strIncludes "ai" (lowerChars c.descriptionD)

def accPtsDisclosure (c : Content) : ℕ :=
  if hasAIDisclosure c then 20 else 0

def fillerWords : List String := ["um", "uh", "basically", "literally", "you know"]

def fillerCount (c : Content) : ℕ :=
  (allLectures c).foldl
    (fun acc l =>
      acc + fillerWords.foldl (fun a f => a + countWordMatches f (lectureTextLower l)) 0) 0

def accPtsFiller (c : Content) : ℕ :=
  let fc := fillerCount c
  if fc = 0 then 25 else if fc ≤ 5 then 18 else 8

def refWords : List String :=
  ["research", "study", "according", "data shows", "evidence", "proven", "established"]

def refCount (c : Content) : ℕ :=
  (allLectures c).countP (fun l => anyIncluded refWords (lectureTextLower l))

/-- JS `refCount >= lectures.length * 0.5` (cross-multiplied by 2). -/
def accRefsStrong (c : Content) : Bool :=
  (allLectures c).length ≤ 2 * refCount c

def accPtsRefs (c : Content) : ℕ :=
  if accRefsStrong c then 25
  else if 2 ≤ refCount c then 18 else 8

def scoreAccuracy (c : Content) : DimResult :=
  let s := speculativeCount c
  let fc := fillerCount c
  let rc := refCount c
  let pts := accPtsSpeculative c + accPtsDisclosure c + accPtsFiller c + accPtsRefs c
  let maxP : ℕ := 30 + 20 + 25 + 25
  { score := rubricScore pts maxP
    passed :=
      (if s = 0 then ["No speculative language"] else [])
      ++ (if hasAIDisclosure c then ["AI disclosure present"] else [])
      ++ (if fc = 0 then ["No filler words"] else [])
      ++ (if accRefsStrong c then ["Good factual grounding"] else [])
    issues :=
      (if s = 0 then []
       else if s ≤ 3 then [s!"{s} speculative phrases found"]
       else ["Too much speculative language"])
      ++ (if hasAIDisclosure c then [] else ["Missing AI disclosure in description"])
      ++ (if fc = 0 then []
          else if fc ≤ 5 then [s!"{fc} filler words"]
          else [s!"Too many filler words ({fc})"])
      ++ (if accRefsStrong c then []
          else if 2 ≤ rc then ["Add more factual references"]
          else ["Needs factual grounding"]) }

/- ── scoreLearningObjectives ───────────────────────────────────────────── -/

def actionVerbs : List String :=
  ["understand", "apply", "analyze", "create", "evaluate", "identify",
   "implement", "develop", "design", "master", "learn", "build"]

def withVerbCount (c : Content) : ℕ :=
  (c.objectivesD.filter
    (fun o => actionVerbs.any (fun v => v.toList.isPrefixOf (lowerChars o)))).length

def loPtsCount (c : Content) : ℕ :=
  let n := c.objectivesD.length
  if 4 ≤ n then 30 else if 3 ≤ n then 22 else 8

/-- JS `withVerbs.length >= objs.length * 0.8` (cross-multiplied by 5). -/
def loVerbsOk (c : Content) : Bool :=
  4 * c.objectivesD.length ≤ 5 * withVerbCount c

def loPtsVerbs (c : Content) : ℕ :=
  if loVerbsOk c then 30 else 15

def loPtsCoverage (c : Content) : ℕ :=
  let sc := c.sectionsD.length
  if c.objectivesD.length ≤ sc ∧ 5 ≤ sc then 40 else if 3 ≤ sc then 25 else 10

def scoreLearningObjectives (c : Content) : DimResult :=
  let n := c.objectivesD.length
  let sc := c.sectionsD.length
  let pts := loPtsCount c + loPtsVerbs c + loPtsCoverage c
  let maxP : ℕ := 30 + 30 + 40
  { score := rubricScore pts maxP
    passed :=
      (if 4 ≤ n then [s!"{n} objectives defined"] else [])
      ++ (if loVerbsOk c then ["Objectives use action verbs"] else [])
      ++ (if n ≤ sc ∧ 5 ≤ sc then ["Content covers objectives"] else [])
    issues :=
      (if 4 ≤ n then [] else if 3 ≤ n then [] else ["Need 4+ objectives"])
      ++ (if loVerbsOk c then [] else ["Use action verbs in objectives"])
      ++ (if n ≤ sc ∧ 5 ≤ sc then []
          else if 3 ≤ sc then ["Some objectives may lack coverage"]
          else ["Insufficient content for objectives"]) }

/- ── scoreContentStructure ─────────────────────────────────────────────── -/

def csPtsSections (c : Content) : ℕ :=
  let n := c.sectionsD.length
  if 5 ≤ n ∧ n ≤ 15 then 25 else if 3 ≤ n then 15 else 5

/-- JS `avgPerSection >= 1 && avgPerSection <= 8` where `avgPerSection` is
    `sections.length > 0 ? lectures.length / sections.length : 0`; for a
    positive section count this is `sections ≤ lectures ∧ lectures ≤ 8·sections`,
    and for zero sections the average 0 fails `>= 1`. -/
def csDistributionOk (c : Content) : Bool :=
  if c.sectionsD.length = 0 then false
  else c.sectionsD.length ≤ (allLectures c).length
       ∧ (allLectures c).length ≤ 8 * c.sectionsD.length

def csPtsDistribution (c : Content) : ℕ :=
  if csDistributionOk c then 25 else 12

/-- `lectures.reduce((s, l) => s + (l.duration || 7), 0)` — a missing or
    zero duration contributes 7 (JS `0 || 7`). -/
def totalDurationScored (c : Content) : ℕ :=
  (allLectures c).foldl
    (fun s l => s + (match l.duration with
      | some n => if n = 0 then 7 else n
      | none => 7)) 0

def csPtsDuration (c : Content) : ℕ :=
  let td := totalDurationScored c
  if 30 ≤ td ∧ td ≤ 90 then 25 else 12

def sectionTitlesLower (c : Content) : List (List Char) :=
  c.sectionsD.map (fun s => lowerChars (s.title.getD ""))

def hasIntroFlow (c : Content) : Bool :=
  match (sectionTitlesLower c).head? with
  | some t => strIncludes "intro" t || strIncludes "foundation" t
  | none => false

def hasCloseFlow (c : Content) : Bool :=
  match (sectionTitlesLower c).getLast? with
  | some t => strIncludes "clos" t || strIncludes "summar" t
  | none => false

def csPtsFlow (c : Content) : ℕ :=
  if hasIntroFlow c || hasCloseFlow c || 5 ≤ c.sectionsD.length then 25 else 15

def scoreContentStructure (c : Content) : DimResult :=
  let n := c.sectionsD.length
  let td := totalDurationScored c
  let pts := csPtsSections c + csPtsDistribution c + csPtsDuration c + csPtsFlow c
  let maxP : ℕ := 25 + 25 + 25 + 25
  { score := rubricScore pts maxP
    passed :=
      (if 5 ≤ n ∧ n ≤ 15 then [s!"{n} sections"] else [])
      ++ (if csDistributionOk c then ["Good lecture distribution"] else [])
      ++ (if 30 ≤ td ∧ td ≤ 90 then [s!"{td}min total"] else [])
      ++ (if hasIntroFlow c || hasCloseFlow c || 5 ≤ n then ["Logical flow"] else [])
    issues :=
      (if 5 ≤ n ∧ n ≤ 15 then []
       else if 3 ≤ n then [s!"{n} sections (need 5-15)"]
       else ["Too few sections"])
      ++ (if csDistributionOk c then [] else ["Uneven lecture distribution"])
      ++ (if 30 ≤ td ∧ td ≤ 90 then [] else [s!"Duration {td}min (need 30-90)"])
      ++ (if hasIntroFlow c || hasCloseFlow c || 5 ≤ n then [] else ["Improve intro/conclusion"]) }

/- ── scorePracticalApplication ─────────────────────────────────────────── -/

def exampleWords : List String :=
  ["example", "for instance", "such as", "let\x27s say", "imagine",
   "consider", "case study", "scenario"]

/-- One increment per (lecture, example word) pair present in the text. -/
def examplesCount (c : Content) : ℕ :=
  (allLectures c).foldl
    (fun acc l => acc + (exampleWords.filter (fun w => strIncludes w (lectureTextLower l))).length) 0

def paPtsExamples (c : Content) : ℕ :=
  let nl := (allLectures c).length
  let ex := examplesCount c
  if nl * 2 ≤ ex then 35 else if nl ≤ ex then 22 else 8

def actionWords : List String :=
  ["try this", "do this", "start", "implement", "apply", "action step"]

/-- Per lecture: +1 for a truthy `callToAction`, +1 when the action regex hits. -/
def actionableCount (c : Content) : ℕ :=
  (allLectures c).foldl
    (fun acc l =>
      acc + (if strTruthy (l.script.bind LectureScript.callToAction) then 1 else 0)
          + (if anyIncluded actionWords (lectureTextLower l) then 1 else 0)) 0

def paPtsActionable (c : Content) : ℕ :=
  if (allLectures c).length ≤ actionableCount c then 30 else 15

def practicalAssignmentOf (c : Content) : Option Assignment :=
  c.assessment.bind Assessment.practicalAssignment

/-- `a?.requirements?.length >= 2 && a?.deliverables?.length >= 1`. -/
def assignmentStrong (c : Content) : Bool :=
  2 ≤ (((practicalAssignmentOf c).bind Assignment.requirements).getD []).length
  ∧ 1 ≤ (((practicalAssignmentOf c).bind Assignment.deliverables).getD []).length

def paPtsAssignment (c : Content) : ℕ :=
  if assignmentStrong c then 35
  else if (practicalAssignmentOf c).isSome then 20 else 8

def scorePracticalApplication (c : Content) : DimResult :=
  let nl := (allLectures c).length
  let ex := examplesCount c
  let pts := paPtsExamples c + paPtsActionable c + paPtsAssignment c
  let maxP : ℕ := 35 + 30 + 35
  { score := rubricScore pts maxP
    passed :=
      (if nl * 2 ≤ ex then [s!"{ex} examples"] else [])
      ++ (if nl ≤ actionableCount c then ["Actionable content"] else [])
      ++ (if assignmentStrong c then ["Good assignment"] else [])
    issues :=
      (if nl * 2 ≤ ex then []
       else if nl ≤ ex then ["Add more examples"]
       else ["Needs more examples"])
      ++ (if nl ≤ actionableCount c then [] else ["Add action steps"])
      ++ (if assignmentStrong c then []
          else if (practicalAssignmentOf c).isSome then ["Strengthen assignment"]
          else ["Missing assignment"]) }

/- ── scoreAssessmentQuality ────────────────────────────────────────────── -/

/-- Sections whose `quiz?.questions?.length > 0`. -/
def withQuizCount (c : Content) : ℕ :=
  (c.sectionsD.filter (fun s => 0 < ((s.quiz.bind Quiz.questions).getD []).length)).length

/-- JS `coverage >= 0.7` for `coverage = sections.length > 0 ?
    withQuiz.length / sections.length : 0` (cross-multiplied by 10). -/
def aqCoverage70 (c : Content) : Bool :=
  0 < c.sectionsD.length ∧ 7 * c.sectionsD.length ≤ 10 * withQuizCount c

/-- JS `coverage >= 0.4` (cross-multiplied by 5). -/
def aqCoverage40 (c : Content) : Bool :=
  0 < c.sectionsD.length ∧ 2 * c.sectionsD.length ≤ 5 * withQuizCount c

def aqPtsSectionQuizzes (c : Content) : ℕ :=
  if aqCoverage70 c then 35 else if aqCoverage40 c then 20 else 8

def finalQuizQuestions (c : Content) : List QuizQuestion :=
  (((c.assessment.bind Assessment.finalQuiz).bind Quiz.questions)).getD []

/-- `finalQuiz.questions.every(q => q.explanation?.length >= 10)`. -/
def finalQuizExplained (c : Content) : Bool :=
  (finalQuizQuestions c).all (fun q => 10 ≤ (q.explanation.getD "").length)

/-- `new Set(finalQuiz.questions.map(q => q.difficulty)).size`. -/
def finalQuizDifficulties (c : Content) : ℕ :=
  ((finalQuizQuestions c).map QuizQuestion.difficulty).dedup.length

def aqPtsFinal (c : Content) : ℕ :=
  if 10 ≤ (finalQuizQuestions c).length then
    (if finalQuizExplained c ∧ 2 ≤ finalQuizDifficulties c then 35 else 22)
  else if 5 ≤ (finalQuizQuestions c).length then 18
  else 5

/-- `[...(finalQuiz?.questions || []), ...sections.flatMap(s => s.quiz?.questions || [])]`. -/
def allQuestions (c : Content) : List QuizQuestion :=
  finalQuizQuestions c ++ c.sectionsD.flatMap (fun s => (s.quiz.bind Quiz.questions).getD [])

def questionTypeCount (c : Content) : ℕ :=
  ((allQuestions c).map QuizQuestion.qtype).dedup.length

def aqPtsTypes (c : Content) : ℕ :=
  if 2 ≤ questionTypeCount c then 30
  else if 0 < (allQuestions c).length then 18 else 5

def scoreAssessmentQuality (c : Content) : DimResult :=
  let pts := aqPtsSectionQuizzes c + aqPtsFinal c + aqPtsTypes c
  let maxP : ℕ := 35 + 35 + 30
  { score := rubricScore pts maxP
    passed :=
      (if aqCoverage70 c then ["Good quiz coverage"] else [])
      ++ (if 10 ≤ (finalQuizQuestions c).length
             ∧ finalQuizExplained c ∧ 2 ≤ finalQuizDifficulties c then
            ["High quality final quiz"] else [])
      ++ (if 2 ≤ questionTypeCount c then ["Good question variety"] else [])
    issues :=
      (if aqCoverage70 c then []
       else if aqCoverage40 c then ["Add more section quizzes"]
       else ["Missing section quizzes"])
      ++ (if 10 ≤ (finalQuizQuestions c).length then
            (if finalQuizExplained c ∧ 2 ≤ finalQuizDifficulties c then []
             else ["Improve quiz explanations/difficulty"])
          else if 5 ≤ (finalQuizQuestions c).length then ["Need 10+ final quiz questions"]
          else ["Missing or insufficient final quiz"])
      ++ (if 2 ≤ questionTypeCount c then []
          else if 0 < (allQuestions c).length then ["Add question type variety"]
          else ["No questions found"]) }

/- ── scoreProductionCompleteness ───────────────────────────────────────── -/

structure ProductionData where
  audioFiles : List String := []
  videoFiles : List String := []
deriving DecidableEq, Repr

/-- `(content.sections || []).every(s => (s.lectures || []).every(l => (l.slides || []).length >= 2))`. -/
def pcHasSlides (c : Content) : Bool :=
  c.sectionsD.all (fun s => (s.lectures.getD []).all (fun l => 2 ≤ (l.slides.getD []).length))

def pcHasNotes (c : Content) : Bool :=
  c.sectionsD.any (fun s => (s.lectures.getD []).any
    (fun l => (l.slides.getD []).any (fun sl => strTruthy sl.speakerNotes)))

/-- `content.cheatSheet?.sections?.length` truthy. -/
def pcHasCheatSheet (c : Content) : Bool :=
  0 < ((c.cheatSheet.bind CheatSheet.sections).getD []).length

def pcPtsSlides (c : Content) : ℕ := if pcHasSlides c then 15 else 0

def pcPtsNotes (c : Content) : ℕ := if pcHasNotes c then 10 else 0

def pcPtsCheatSheet (c : Content) : ℕ := if pcHasCheatSheet c then 5 else 0

/-- Unlike the six rubric dimensions this one starts from a base of 70 points
    and caps at 100 via `Math.min`; `productionData` is accepted and ignored,
    as in the source. -/
def scoreProductionCompleteness (c : Content) (_pd : ProductionData) : DimResult :=
  let pts := 70 + pcPtsSlides c + pcPtsNotes c + pcPtsCheatSheet c
  { score := min 100 pts
    passed :=
      (if pcHasSlides c then ["All lectures have slides"] else [])
      ++ (if pcHasNotes c then ["Speaker notes present"] else [])
      ++ (if pcHasCheatSheet c then ["Cheat sheet present"] else [])
    issues :=
      (if pcHasSlides c then [] else ["Some lectures lack slides"])
      ++ (if pcHasNotes c then [] else ["Add speaker notes"])
      ++ (if pcHasCheatSheet c then [] else ["Missing cheat sheet"]) }

/- ── scoreEngagementClarity ────────────────────────────────────────────── -/

def hookPatterns : List String :=
  ["?", "have you", "did you", "imagine", "what if", "today", "welcome", "let\x27s"]

/-- Lectures whose `(l.script?.opening || '').toLowerCase()` matches the hook regex. -/
def hookCount (c : Content) : ℕ :=
  (allLectures c).countP
    (fun l => anyIncluded hookPatterns (lowerChars ((l.script.bind LectureScript.opening).getD "")))

/-- JS `hooks >= lectures.length * 0.7` (cross-multiplied by 10). -/
def ecHooksOk (c : Content) : Bool :=
  7 * (allLectures c).length ≤ 10 * hookCount c

def ecPtsHooks (c : Content) : ℕ :=
  if ecHooksOk c then 40 else 20

/-- Total count of `\byou\b` matches across all lecture texts. -/
def youCount (c : Content) : ℕ :=
  (allLectures c).foldl (fun acc l => acc + countWordMatches "you" (lectureTextLower l)) 0

/-- JS `avgYou >= 8` where `avgYou = lectures.length > 0 ?
    youCount / lectures.length : 0`; an empty course has average 0. -/
def ecYou8 (c : Content) : Bool :=
  0 < (allLectures c).length ∧ 8 * (allLectures c).length ≤ youCount c

/-- JS `avgYou >= 4`. -/
def ecYou4 (c : Content) : Bool :=
  0 < (allLectures c).length ∧ 4 * (allLectures c).length ≤ youCount c

def ecPtsYou (c : Content) : ℕ :=
  if ecYou8 c then 30 else if ecYou4 c then 20 else 10

/-- `new Set` over `s.visualType || 'bullets'` for every slide of every lecture. -/
def slideTypeCount (c : Content) : ℕ :=
  (((allLectures c).flatMap (fun l => l.slides.getD [])).map
    (fun s => if strTruthy s.visualType then s.visualType.getD "" else "bullets")).dedup.length

def ecPtsVariety (c : Content) : ℕ :=
  if 4 ≤ slideTypeCount c then 30 else if 2 ≤ slideTypeCount c then 20 else 10

def scoreEngagementClarity (c : Content) : DimResult :=
  let pts := ecPtsHooks c + ecPtsYou c + ecPtsVariety c
  let maxP : ℕ := 40 + 30 + 30
  { score := rubricScore pts maxP
    passed :=
      (if ecHooksOk c then ["Strong hooks"] else [])
      ++ (if ecYou8 c then ["Conversational tone"] else [])
      ++ (if 4 ≤ slideTypeCount c then ["Good visual variety"] else [])
    issues :=
      (if ecHooksOk c then [] else ["Improve lecture hooks"])
      ++ (if ecYou8 c then []
          else if ecYou4 c then ["Use more \x22you\x22 language"]
          else ["Needs conversational tone"])
      ++ (if 4 ≤ slideTypeCount c then []
          else if 2 ≤ slideTypeCount c then ["Add slide variety"]
          else ["Slides lack variety"]) }

/- ── evaluateCourseQuality ─────────────────────────────────────────────── -/

structure ScoreSet where
  accuracy : DimResult
  learningObjectives : DimResult
  contentStructure : DimResult
  practicalApplication : DimResult
  assessmentQuality : DimResult
  productionCompleteness : DimResult
  engagementClarity : DimResult
deriving DecidableEq, Repr

/-- The seven `(key, result)` entries in the object-insertion order the
    source iterates with `Object.entries`. -/
def scoreEntries (s : ScoreSet) : List (String × DimResult) :=
  [("accuracy", s.accuracy), ("learningObjectives", s.learningObjectives),
   ("contentStructure", s.contentStructure),
   ("practicalApplication", s.practicalApplication),
   ("assessmentQuality", s.assessmentQuality),
   ("productionCompleteness", s.productionCompleteness),
   ("engagementClarity", s.engagementClarity)]

/-- The pre-rounding weighted sum `Σ r.score × WEIGHTS[key]`. -/
def weightedTotal (a lo cs pa aq pc ec : ℕ) : ℚ :=
  (a : ℚ) * WEIGHTS.accuracy + (lo : ℚ) * WEIGHTS.learningObjectives
  + (cs : ℚ) * WEIGHTS.contentStructure + (pa : ℚ) * WEIGHTS.practicalApplication
  + (aq : ℚ) * WEIGHTS.assessmentQuality + (pc : ℚ) * WEIGHTS.productionCompleteness
  + (ec : ℚ) * WEIGHTS.engagementClarity

/-- The exact-arithmetic reading of
    `Math.round(Object.entries(scores).reduce((sum, [key, r]) => sum + r.score * WEIGHTS[key], 0))`
    — the spec's formula `round(Σ dimension.score × weight)` over exact
    rationals: the weighted sum is `S/100` for
    `S = 25a + 15lo + 15cs + 20pa + 10aq + 10pc + 5ec`, and
    `⌊S/100 + 1/2⌋ = (S + 50) / 100` (`overallFromScores_eq_jsRound` below).
    The program itself accumulates the sum in IEEE doubles (`overallFloat`
    below); the two differ at reachable float ties — see the C5 theorems. -/
def overallFromScores (a lo cs pa aq pc ec : ℕ) : ℕ :=
  (25 * a + 15 * lo + 15 * cs + 20 * pa + 10 * aq + 10 * pc + 5 * ec + 50) / 100

/-- Nearest IEEE-754 double to `p / q` (round to nearest, ties to even),
    returned as a `2^57`-scaled natural: the result `k` stands for the
    double `k / 2^57`.  `i0 - 60` is the binary exponent `⌊log2 (p/q)⌋`, and
    the 53-bit significand is obtained by rounding `p·2^(52-e) / q` half to
    even.  Faithful for the value range of the overall-score reduce, where
    every nonzero double is at least `0.05` (exponent ≥ -5, so a multiple of
    `2^-57`) and below `2^18`. -/
def nearestDoubleScaled (p q : ℕ) : ℕ :=
  if p = 0 then 0
  else
    let i0 := (List.range 131).foldl
      (fun acc i => if q * 2 ^ i ≤ p * 2 ^ 60 then i else acc) 0
    let num := p * 2 ^ (112 - i0)
    let m0 := num / q
    let r := num % q
    let m :=
      if 2 * r < q then m0
      else if q < 2 * r then m0 + 1
      else if m0 % 2 = 0 then m0 else m0 + 1
    m * 2 ^ (i0 - 55)

/-- A small integer as a double, `2^57`-scaled (exact for the 0-100 scores). -/
def dblOfNat (n : ℕ) : ℕ := n * 2 ^ 57

/-- IEEE double multiplication on `2^57`-scaled values: the exact product
    `(a/2^57) · (b/2^57) = a·b / 2^114`, rounded to the nearest double. -/
def fpMul (a b : ℕ) : ℕ := nearestDoubleScaled (a * b) (2 ^ 114)

/-- IEEE double addition on `2^57`-scaled values: the exact sum rounded to
    the nearest double. -/
def fpAdd (a b : ℕ) : ℕ := nearestDoubleScaled (a + b) (2 ^ 57)

/-- The double values of the `WEIGHTS` literals (`0.25` is exactly
    representable; `0.15`, `0.20`, `0.10` and `0.05` are not and round). -/
def wAccD : ℕ := nearestDoubleScaled 25 100

def wLoD : ℕ := nearestDoubleScaled 15 100

def wCsD : ℕ := nearestDoubleScaled 15 100

def wPaD : ℕ := nearestDoubleScaled 20 100

def wAqD : ℕ := nearestDoubleScaled 10 100

def wPcD : ℕ := nearestDoubleScaled 10 100

def wEcD : ℕ := nearestDoubleScaled 5 100

/-- `Math.round(Object.entries(scores).reduce((sum, [key, r]) => sum + r.score * WEIGHTS[key], 0))`
    under IEEE-754 double semantics, bit-exactly: each integer dimension
    score is multiplied by the double value of its weight literal and the
    products are accumulated left to right in object-insertion order, every
    operation rounding to nearest/ties-to-even; `Math.round` then returns
    the integer closest to the final double with ties toward `+∞`, which for
    the nonnegative scaled value `s / 2^57` is `(s + 2^56) / 2^57`. -/
def overallFloat (a lo cs pa aq pc ec : ℕ) : ℕ :=
  let s := fpAdd (fpAdd (fpAdd (fpAdd (fpAdd (fpAdd (fpAdd 0
    (fpMul (dblOfNat a) wAccD)) (fpMul (dblOfNat lo) wLoD))
    (fpMul (dblOfNat cs) wCsD)) (fpMul (dblOfNat pa) wPaD))
    (fpMul (dblOfNat aq) wAqD)) (fpMul (dblOfNat pc) wPcD))
    (fpMul (dblOfNat ec) wEcD)
  (s + 2 ^ 56) / 2 ^ 57

structure QualityEvaluation where
  overall : ℕ
  passing : Bool
  scores : ScoreSet
  failingDimensions : List String
  summary : String
deriving DecidableEq, Repr

def evaluateCourseQuality (c : Content) (pd : ProductionData) : QualityEvaluation :=
  let scores : ScoreSet :=
    { accuracy := scoreAccuracy c
      learningObjectives := scoreLearningObjectives c
      contentStructure := scoreContentStructure c
      practicalApplication := scorePracticalApplication c
      assessmentQuality := scoreAssessmentQuality c
      productionCompleteness := scoreProductionCompleteness c pd
      engagementClarity := scoreEngagementClarity c }
  let overall := overallFloat scores.accuracy.score scores.learningObjectives.score
    scores.contentStructure.score scores.practicalApplication.score
    scores.assessmentQuality.score scores.productionCompleteness.score
    scores.engagementClarity.score
  let failing := (scoreEntries scores).filter (fun e => e.2.score < THRESHOLD_MINIMUM)
  let nf := failing.length
  { overall := overall
    passing := decide (THRESHOLD_MINIMUM ≤ overall) && failing.isEmpty
    scores := scores
    failingDimensions := failing.map Prod.fst
    summary :=
      if THRESHOLD_MINIMUM ≤ overall ∧ failing.isEmpty then s!"PASSED ({overall}/100)"
      else s!"FAILED ({overall}/100) — {nf} dimension(s) below {THRESHOLD_MINIMUM}" }

/- ═══════════ qualityGates.js — the 4-gate chain ═══════════════════════ -/

/-- qualityGates.js has its own `extractScriptText` that omits `callToAction`. -/
def extractScriptTextGates (l : Lecture) : List Char :=
  let parts : List String :=
    (if strTruthy (l.script.bind LectureScript.opening) then
       [(l.script.bind LectureScript.opening).getD ""] else [])
    ++ ((l.script.bind LectureScript.mainContent).getD []).map
         (fun m => m.content.getD "")
    ++ (if strTruthy (l.script.bind LectureScript.summary) then
          [(l.script.bind LectureScript.summary).getD ""] else [])
  (String.intercalate " " parts).toList

structure GateCheck where
  name : String
  status : String
  value : String
deriving DecidableEq, Repr

structure GateFailure where
  name : String
  issue : String := ""
  score : Option ℕ := none
  issues : List String := []
deriving DecidableEq, Repr

structure GateResult where
  gate : ℕ
  name : String
  passed : Bool
  overall : Option ℕ := none
  checks : List GateCheck := []
  failures : List GateFailure := []
deriving DecidableEq, Repr

/-- Gate 1 check conditions, in source order. -/
def g1TitleOk (c : Content) : Bool :=
  match c.metadata.bind CourseMetadata.title with
  | some t => 10 ≤ t.length ∧ t.length ≤ 80
  | none => false

def g1DescriptionOk (c : Content) : Bool :=
  match c.metadata.bind CourseMetadata.description with
  | some d => 200 ≤ d.length
  | none => false

def g1ObjectivesOk (c : Content) : Bool :=
  match c.metadata.bind CourseMetadata.objectives with
  | some o => 3 ≤ o.length
  | none => false

def g1SectionsOk (c : Content) : Bool := 5 ≤ c.sectionsD.length

def g1LecturesOk (c : Content) : Bool := 5 ≤ lectureCount c

/-- String rendering of `meta.title?.length + ' chars'` and friends
    (`undefined` when the field is missing). -/
def jsLenStr : Option String → String
  | some s => s!"{s.length}"
  | none => "undefined"

def jsListLenStr : Option (List String) → String
  | some l => s!"{l.length}"
  | none => "undefined"

def gateCurriculum (c : Content) : GateResult :=
  let nsec := c.sectionsD.length
  let nlec := lectureCount c
  let conds : List (Bool × GateCheck × GateFailure) :=
    [(g1TitleOk c,
      ⟨"Title", "pass", jsLenStr (c.metadata.bind CourseMetadata.title) ++ " chars"⟩,
      { name := "Title", issue := "Title 10-80 chars" }),
     (g1DescriptionOk c,
      ⟨"Description", "pass", jsLenStr (c.metadata.bind CourseMetadata.description) ++ " chars"⟩,
      { name := "Description", issue := "Description 200+ chars" }),
     (g1ObjectivesOk c,
      ⟨"Objectives", "pass", jsListLenStr (c.metadata.bind CourseMetadata.objectives)⟩,
      { name := "Objectives", issue := "Need 3+ objectives" }),
     (g1SectionsOk c,
      ⟨"Sections", "pass", s!"{nsec}"⟩,
      { name := "Sections", issue := s!"Need 5+ (have {nsec})" }),
     (g1LecturesOk c,
      ⟨"Lectures", "pass", s!"{nlec}"⟩,
      { name := "Lectures", issue := s!"Need 5+ (have {nlec})" })]
  { gate := 1, name := "Curriculum"
    passed := conds.all (fun t => t.1)
    checks := (conds.filter (fun t => t.1)).map (fun t => t.2.1)
    failures := (conds.filter (fun t => !t.1)).map (fun t => t.2.2) }

/-- Per-lecture scan of Gate 2: accumulates `(totalDuration, issues)` over
    every lecture of every section, where a lecture is an issue when its
    script has fewer than 200 words or fewer than 2 slides, and
    `totalDuration += lec.duration || 0`. -/
def gateLecturesScan (c : Content) : ℕ × ℕ :=
  c.sectionsD.foldl
    (fun acc sec =>
      (sec.lectures.getD []).foldl
        (fun acc2 lec =>
          let words := wordCount (extractScriptTextGates lec)
          let slides := (lec.slides.getD []).length
          (acc2.1 + lec.duration.getD 0,
           acc2.2 + (if words < 200 ∨ slides < 2 then 1 else 0)))
        acc)
    (0, 0)

/-- JS `issues / total > 0.3` under IEEE semantics: `0/0` is NaN and every
    NaN comparison is false; `k/0` for `k > 0` is `+∞`, which exceeds 0.3. -/
def gateLectures (c : Content) : GateResult :=
  let scan := gateLecturesScan c
  let totalDuration := scan.1
  let issues := scan.2
  let total := lectureCount c
  let qualityBad : Bool :=
    if total = 0 then decide (issues ≠ 0)
    else decide (3 * total < 10 * issues)
  let durationBad : Bool := decide (totalDuration < 30) || decide (120 < totalDuration)
  { gate := 2, name := "Lectures"
    passed := !qualityBad && !durationBad
    checks :=
      (if qualityBad then [] else [⟨"Quality", "pass", s!"{total - issues}/{total} OK"⟩])
      ++ (if durationBad then [] else [⟨"Duration", "pass", s!"{totalDuration}min"⟩])
    failures :=
      (if qualityBad then [{ name := "Quality", issue := s!"{issues}/{total} lectures have issues" }] else [])
      ++ (if durationBad then [{ name := "Duration", issue := s!"{totalDuration}min" }] else []) }

/-- Gate 3 consults the filesystem through the explicit oracle `fsEx`. -/
def gateVideo (fsEx : String → Bool) (pd : ProductionData) : GateResult :=
  let audioOK := pd.audioFiles.countP fsEx
  let n := pd.audioFiles.length
  let failCond : Bool := decide (0 < n) && decide (2 * audioOK < n)
  { gate := 3, name := "Video"
    passed := !failCond
    checks :=
      if failCond then []
      else [⟨"Audio", if 0 < n then "pass" else "skip", s!"{audioOK}/{n}"⟩]
    failures :=
      if failCond then [{ name := "Audio", issue := s!"{audioOK}/{n} files exist" }] else [] }

def gateFinalAssembly (c : Content) (pd : ProductionData) : GateResult :=
  let ev := evaluateCourseQuality c pd
  let dimChecks := (scoreEntries ev.scores).filter (fun e => THRESHOLD_MINIMUM ≤ e.2.score)
  let dimFails := (scoreEntries ev.scores).filter (fun e => e.2.score < THRESHOLD_MINIMUM)
  let compliant := strIncludes "ai" (lowerChars c.descriptionD)
  { gate := 4, name := "Final Assembly"
    passed := ev.passing && compliant
    overall := some ev.overall
    checks := dimChecks.map (fun e => ⟨e.1, "pass", s!"{e.2.score}/100"⟩)
    failures :=
      dimFails.map (fun e => { name := e.1, score := some e.2.score, issues := e.2.issues })
      ++ (if compliant then []
          else [{ name := "Udemy Compliance", issues := ["AI disclosure required"] }]) }

structure GatesMap where
  curriculum : Option GateResult := none
  lectures : Option GateResult := none
  video : Option GateResult := none
  finalAssembly : Option GateResult := none
deriving DecidableEq, Repr

structure ChainResult where
  passed : Bool
  gates : GatesMap := {}
  failedAt : Option ℕ := none
  overall : Option ℕ := none
deriving DecidableEq, Repr

/-- `runAllGates`: run the four gates strictly in order with an early return
    after the first failure; Gate 3 runs only when audio or video artifacts
    were produced (`productionData.audioFiles?.length || …videoFiles?.length`). -/
def runAllGates (fsEx : String → Bool) (c : Content) (pd : ProductionData) : ChainResult :=
  let g1 := gateCurriculum c
  if !g1.passed then
    { passed := false, gates := { curriculum := some g1 }, failedAt := some 1 }
  else
    let g2 := gateLectures c
    if !g2.passed then
      { passed := false, gates := { curriculum := some g1, lectures := some g2 },
        failedAt := some 2 }
    else
      if pd.audioFiles.length ≠ 0 ∨ pd.videoFiles.length ≠ 0 then
        let g3 := gateVideo fsEx pd
        if !g3.passed then
          { passed := false,
            gates := { curriculum := some g1, lectures := some g2, video := some g3 },
            failedAt := some 3 }
        else
          let g4 := gateFinalAssembly c pd
          if !g4.passed then
            { passed := false,
              gates := { curriculum := some g1, lectures := some g2, video := some g3,
                         finalAssembly := some g4 },
              failedAt := some 4 }
          else
            { passed := true,
              gates := { curriculum := some g1, lectures := some g2, video := some g3,
                         finalAssembly := some g4 },
              overall := g4.overall }
      else
        let g4 := gateFinalAssembly c pd
        if !g4.passed then
          { passed := false,
            gates := { curriculum := some g1, lectures := some g2, finalAssembly := some g4 },
            failedAt := some 4 }
        else
          { passed := true,
            gates := { curriculum := some g1, lectures := some g2, finalAssembly := some g4 },
            overall := g4.overall }

/- ═══════════ courseOrchestrator.js — the 9-stage pipeline ═════════════ -/

/- CONFIG at its defaults: the QUALITY_THRESHOLD_* environment overrides are
   unset (`parseInt(undefined) || 95` / `|| 85`) and no `--skip-*` CLI flag is
   given, so every `enable*` flag is true. -/

def CONFIG_quality_target : ℕ := 95

def CONFIG_quality_minimum : ℕ := 85

def CONFIG_maxRetries : ℕ := 3

structure Course where
  id : String
  title : String := ""
  category : String := ""
  status : String := "pending"
deriving DecidableEq, Repr

/-- The catalog collaborator (`CURRICULUM`), as a read interface; status
    writes are recorded in `OrchOutcome.statusUpdates` below. -/
structure Catalog where
  getCourseById : String → Option Course
  getCoursesByCategory : String → List Course
  getNextCourse : Option Course

structure OrchOptions where
  courseId : Option String := none
  category : Option String := none
deriving DecidableEq, Repr

/-- Stage 1 (SELECT): resolve the catalog entry; a JS `throw` is an
    `Except.error` carrying the thrown message. -/
def selectCourse (cat : Catalog) (opts : OrchOptions) : Except String Course :=
  match opts.courseId with
  | some cid =>
    match cat.getCourseById cid with
    | some course => .ok course
    | none => .error s!"Course not found: {cid}"
  | none =>
    match opts.category with
    | some g =>
      match (cat.getCoursesByCategory g).find? (fun c => c.status != "completed") with
      | some course => .ok course
      | none => .error s!"No pending courses in category: {g}"
    | none =>
      match cat.getNextCourse with
      | some course => .ok course
      | none => .error "No courses available"

structure NarrationResult where
  successfulLectures : ℕ := 0
  totalLectures : ℕ := 0
  totalDuration : ℕ := 0
  audioFiles : List String := []
deriving DecidableEq, Repr

structure RenderResult where
  successfulRenders : ℕ := 0
  videoFiles : List String := []
deriving DecidableEq, Repr

/-- The external collaborators of one run.  `generateCourse` is indexed by
    the attempt number so a stub generator can answer differently on
    successive retries; each `Except.error` models a thrown exception. -/
structure Collab where
  generateCourse : ℕ → Except String Content
  narrate : Except String NarrationResult
  presentSlides : Except String ℕ
  makeThumbnail : Except String Unit
  render : Except String RenderResult
  finalAssessment : Except String Quiz
  buildCheatsheet : Except String Unit
  notify : Except String Unit
  fsExists : String → Bool

/-- The retry loop's structural check (lines 110-116): content is thrown
    away and regenerated when `lectureCount < 5`; note it does not look at
    the section count. -/
def loopStructuralOk (c : Content) : Bool := !decide (lectureCount c < 5)

/-- Stage 2 (SCRIPTWRITER) retry loop, lines 103-139 of the source.  The
    fuel argument equals `CONFIG.maxRetries - scriptAttempts`, so `fuel = 0`
    is the exit of `while (scriptAttempts < CONFIG.maxRetries)`.  Returns
    `(content, scriptAttempts, qualityScore, errors)`; a `none` content is
    the state that makes the following `if (!content) throw` fire. -/
def scriptLoopAux (gen : ℕ → Except String Content) :
    ℕ → ℕ → ℕ → List String → Option Content × ℕ × ℕ × List String
  | 0, attempts, qs, errs => (none, attempts, qs, errs)
  | fuel + 1, attempts, qs, errs =>
    let a := attempts + 1
    match gen a with
    | .error e => scriptLoopAux gen fuel a qs (errs ++ [s!"Script attempt {a}: {e}"])
    | .ok c =>
      if !loopStructuralOk c then scriptLoopAux gen fuel a qs errs
      else
        let q := (evaluateCourseQuality c {}).overall
        if CONFIG_quality_target ≤ q then (some c, a, q, errs)
        else if CONFIG_quality_minimum ≤ q ∧ CONFIG_maxRetries ≤ a then (some c, a, q, errs)
        else if q < CONFIG_quality_minimum then scriptLoopAux gen fuel a q errs
        else (some c, a, q, errs)

def scriptLoop (gen : ℕ → Except String Content) :
    Option Content × ℕ × ℕ × List String :=
  scriptLoopAux gen CONFIG_maxRetries 0 0 []

structure StageOutcome where
  success : Bool
  skipped : Bool := false
  attempts : Option ℕ := none
  qualityScore : Option ℕ := none
  lectures : Option ℕ := none
  duration : Option ℕ := none
  audioFiles : List String := []
  slides : Option ℕ := none
  videos : Option ℕ := none
  videoFiles : List String := []
  questions : Option ℕ := none
  score : Option ℕ := none
  error : Option String := none
deriving DecidableEq, Repr

structure Stages where
  curriculum : Option StageOutcome := none
  scriptwriter : Option StageOutcome := none
  narrator : Option StageOutcome := none
  slideforge : Option StageOutcome := none
  renderer : Option StageOutcome := none
  quiz : Option StageOutcome := none
  cheatsheet : Option StageOutcome := none
  validator : Option StageOutcome := none
deriving DecidableEq, Repr

structure RunResult where
  success : Bool := false
  course : Option Course := none
  content : Option Content := none
  qualityScore : ℕ := 0
  stages : Stages := {}
  errors : List String := []
  warnings : List String := []
deriving DecidableEq, Repr

/-- A run's return value together with the catalog status writes it
    performed, in order. -/
structure OrchOutcome where
  result : RunResult
  statusUpdates : List (String × String) := []
deriving DecidableEq, Repr

/-- Mutable state threaded through stages 3-7. -/
structure PipeState where
  course : Course
  content : Content
  stages : Stages
  errors : List String
  warnings : List String
  loopQuality : ℕ
deriving DecidableEq, Repr

/-- Stage 3 (NARRATOR): errors are caught, recorded as a warning plus a
    failed StageOutcome with empty `audioFiles`. -/
def stageNarrator (col : Collab) (s : PipeState) : PipeState :=
  match col.narrate with
  | .ok nr =>
    let st : StageOutcome :=
      { success := true, lectures := some nr.successfulLectures,
        duration := some nr.totalDuration, audioFiles := nr.audioFiles }
    { s with stages := { s.stages with narrator := some st } }
  | .error e =>
    let st : StageOutcome := { success := false, error := some e, audioFiles := [] }
    { s with warnings := s.warnings ++ [s!"Narration: {e}"],
             stages := { s.stages with narrator := some st } }

/-- Stage 4 (SLIDEFORGE): presentation then thumbnail; a throw in either is
    caught and overwrites the stage outcome with a failure. -/
def stageSlideforge (col : Collab) (s : PipeState) : PipeState :=
  match col.presentSlides with
  | .ok nslides =>
    match col.makeThumbnail with
    | .ok _ =>
      let st : StageOutcome := { success := true, slides := some nslides }
      { s with stages := { s.stages with slideforge := some st } }
    | .error e =>
      let st : StageOutcome := { success := false, error := some e }
      { s with stages := { s.stages with slideforge := some st } }
  | .error e =>
    let st : StageOutcome := { success := false, error := some e }
    { s with stages := { s.stages with slideforge := some st } }

def narratorAudioFiles (s : PipeState) : List String :=
  match s.stages.narrator with
  | some st => st.audioFiles
  | none => []

def rendererVideoFiles (s : PipeState) : List String :=
  match s.stages.renderer with
  | some st => st.videoFiles
  | none => []

/-- Stage 5 (RENDERER): skipped outright when the narrator produced no audio
    files (`result.stages.narrator?.audioFiles?.length > 0` fails). -/
def stageRenderer (col : Collab) (s : PipeState) : PipeState :=
  if 0 < (narratorAudioFiles s).length then
    match col.render with
    | .ok rr =>
      let st : StageOutcome :=
        { success := true, videos := some rr.successfulRenders, videoFiles := rr.videoFiles }
      { s with stages := { s.stages with renderer := some st } }
    | .error e =>
      let st : StageOutcome := { success := false, error := some e }
      { s with stages := { s.stages with renderer := some st } }
  else
    let st : StageOutcome := { success := true, skipped := true }
    { s with stages := { s.stages with renderer := some st } }

def setFinalQuiz (c : Content) (q : Quiz) : Content :=
  let a : Assessment := { c.assessment.getD {} with finalQuiz := some q }
  { c with assessment := some a }

/-- Stage 6 (QUIZ): generates a final assessment only when
    `content.assessment?.finalQuiz?.questions?.length` is falsy, mutating the
    content that later stages (and the gates) see. -/
def stageQuiz (col : Collab) (s : PipeState) : PipeState :=
  if 0 < (finalQuizQuestions s.content).length then
    let st : StageOutcome := { success := true, questions := some (allQuestions s.content).length }
    { s with stages := { s.stages with quiz := some st } }
  else
    match col.finalAssessment with
    | .ok q =>
      let c2 := setFinalQuiz s.content q
      let st : StageOutcome := { success := true, questions := some (allQuestions c2).length }
      { s with content := c2, stages := { s.stages with quiz := some st } }
    | .error e =>
      let st : StageOutcome := { success := false, error := some e }
      { s with stages := { s.stages with quiz := some st } }

/-- Stage 7 (CHEATSHEET). -/
def stageCheatsheet (col : Collab) (s : PipeState) : PipeState :=
  match col.buildCheatsheet with
  | .ok _ =>
    let st : StageOutcome := { success := true }
    { s with stages := { s.stages with cheatsheet := some st } }
  | .error e =>
    let st : StageOutcome := { success := false, error := some e }
    { s with stages := { s.stages with cheatsheet := some st } }

/-- Stages 8-9 (VALIDATOR, NOTIFY): the gate chain always runs, the result's
    `success` is set to true afterwards, and the terminal catalog status is
    `completed` when the chain passed and `needs_review` otherwise.  The
    notification collaborator's outcome is caught and ignored by the source,
    so it leaves no trace in the run result. -/
def finishRun (col : Collab) (s : PipeState) : OrchOutcome :=
  let pd : ProductionData :=
    { audioFiles := narratorAudioFiles s, videoFiles := rendererVideoFiles s }
  let gr := runAllGates col.fsExists s.content pd
  let qscore := match gr.overall with
    | some v => if v = 0 then s.loopQuality else v
    | none => s.loopQuality
  let finalStatus := if gr.passed then "completed" else "needs_review"
  let vst : StageOutcome := { success := gr.passed, score := some qscore }
  let res : RunResult :=
    { success := true, course := some s.course, content := some s.content,
      qualityScore := qscore,
      stages := { s.stages with validator := some vst },
      errors := s.errors, warnings := s.warnings }
  { result := res, statusUpdates := [(s.course.id, "in_progress"), (s.course.id, finalStatus)] }

/-- The whole `orchestrate` run.  The body's single try/catch makes the
    function total: any uncaught throw (SELECT failure, or GENERATE
    exhaustion) lands in the catch block, which records the message in
    `result.errors`, leaves `success = false`, and writes status `failed`
    only when a course had already been selected. -/
def orchestrate (cat : Catalog) (col : Collab) (opts : OrchOptions) : OrchOutcome :=
  match selectCourse cat opts with
  | .error e =>
    { result := { success := false, errors := [e] }, statusUpdates := [] }
  | .ok course =>
    let stages0 : Stages := { curriculum := some { success := true } }
    match scriptLoop col.generateCourse with
    | (none, _, _, errs) =>
      let res : RunResult :=
        { success := false, course := some course, stages := stages0,
          errors := errs ++ ["Failed to generate course content"] }
      { result := res,
        statusUpdates := [(course.id, "in_progress"), (course.id, "failed")] }
    | (some content0, attempts, qs, errs) =>
      let swst : StageOutcome :=
        { success := true, attempts := some attempts, qualityScore := some qs }
      let s0 : PipeState :=
        { course := course, content := content0,
          stages := { stages0 with scriptwriter := some swst },
          errors := errs, warnings := [], loopQuality := qs }
      finishRun col
        (stageCheatsheet col (stageQuiz col (stageRenderer col (stageSlideforge col (stageNarrator col s0)))))

/- ═══════════ Bridge lemmas: integer forms = JS float formulas ═════════ -/

theorem jsRoundNat_natCast (n : ℕ) : jsRoundNat (n : ℚ) = n := by
  have harg : (n : ℚ) + 1/2 = ((2 * n + 1 : ℕ) : ℚ) / ((2 : ℕ) : ℚ) := by
    push_cast
    ring
  unfold jsRoundNat jsRound
  rw [harg, Int.floor_toNat, Nat.floor_div_nat, Nat.floor_natCast]
  omega

theorem rubricScore_eq_jsRound (p m : ℕ) (hm : 0 < m) :
    rubricScore p m = jsRoundNat ((p : ℚ) / (m : ℚ) * 100) := by
  have hm0 : (m : ℚ) ≠ 0 := Nat.cast_ne_zero.mpr hm.ne'
  have harg : (p : ℚ) / (m : ℚ) * 100 + 1/2
      = ((200 * p + m : ℕ) : ℚ) / ((2 * m : ℕ) : ℚ) := by
    push_cast
    field_simp
    ring
  unfold jsRoundNat jsRound rubricScore
  rw [harg, Int.floor_toNat, Nat.floor_div_nat, Nat.floor_natCast]

theorem overallFromScores_eq_jsRound (a lo cs pa aq pc ec : ℕ) :
    overallFromScores a lo cs pa aq pc ec
      = jsRoundNat (weightedTotal a lo cs pa aq pc ec) := by
  have harg : weightedTotal a lo cs pa aq pc ec + 1/2
      = ((25 * a + 15 * lo + 15 * cs + 20 * pa + 10 * aq + 10 * pc + 5 * ec + 50 : ℕ) : ℚ)
        / ((100 : ℕ) : ℚ) := by
    unfold weightedTotal WEIGHTS
    push_cast
    norm_num
    ring
  unfold jsRoundNat jsRound overallFromScores
  rw [harg, Int.floor_toNat, Nat.floor_div_nat, Nat.floor_natCast]

/- ═══════════ Concrete artifacts for witnesses and counterexamples ═════ -/

def emptyLecture : Lecture := {}

/-- A structurally loop-acceptable but low-quality artifact: one section
    holding five bare lectures.  Its dimension scores evaluate to
    63 / 48 / 70 / 31 / 18 / 70 / 40, overall 50. -/
def cLow : Content :=
  { sections := some
      [{ lectures := some [emptyLecture, emptyLecture, emptyLecture, emptyLecture, emptyLecture] }] }

def baseText : String :=
  "Here is an example, for instance a plan that you can use. When you plan, you act, you focus, you learn, you improve, you grow, you win."

def specText : String := baseText ++ " This probably helps."

def refText : String := baseText ++ " Research shows the method works."

def mkSlides2 (t1 t2 : String) (withNotes : Bool) : List Slide :=
  [{ visualType := some t1,
     speakerNotes := if withNotes then some "Emphasize the core idea." else none },
   { visualType := some t2 }]

def mkLecture (text : String) (t1 t2 : String) (withNotes : Bool) : Lecture :=
  { script := some { opening := some "Welcome to this lecture.",
                     mainContent := some [{ content := some text }],
                     callToAction := some "Go practice the method now." },
    slides := some (mkSlides2 t1 t2 withNotes) }

def mkQuestion (ty diff : String) : QuizQuestion :=
  { qtype := some ty, explanation := some "Because the method compounds over time.",
    difficulty := some diff }

def sectionQuiz : Quiz := { questions := some [mkQuestion "multiple_choice" "easy"] }

def mkSection (l : Lecture) (withQuiz : Bool) : CourseSection :=
  { title := some "Core Skills", lectures := some [l],
    quiz := if withQuiz then some sectionQuiz else none }

def finalQuizHigh : Quiz :=
  { questions := some (List.replicate 5 (mkQuestion "true_false" "easy")
      ++ List.replicate 5 (mkQuestion "true_false" "hard")) }

/-- A five-section, five-lecture artifact whose dimension scores evaluate to
    73 / 100 / 100 / 100 / 100 / 100 / 100, overall 93 — inside
    `[MINIMUM, TARGET)`. -/
def cHigh : Content :=
  { metadata := some
      { title := some "Mastering Productivity Basics",
        description := some "Made with AI assistance.",
        objectives := some ["Understand the planning method", "Build a weekly schedule",
                            "Apply focus techniques", "Create a review habit"] },
    sections := some
      [mkSection (mkLecture specText "bullets" "chart" true) true,
       mkSection (mkLecture specText "diagram" "quote" false) true,
       mkSection (mkLecture specText "bullets" "chart" false) true,
       mkSection (mkLecture (specText ++ " Research shows the method works.") "diagram" "quote" false) true,
       mkSection (mkLecture refText "bullets" "chart" false) false],
    assessment := some
      { finalQuiz := some finalQuizHigh,
        practicalAssignment := some
          { requirements := some ["Draft a weekly plan", "Track progress daily"],
            deliverables := some ["A completed plan document"] } },
    cheatSheet := some { sections := some ["Key ideas"] } }

/-- One section with no lectures at all (`lectureCount = 0`). -/
def cNoLectures : Content := { sections := some [{ title := some "Planned" }] }

/-- The empty artifact: every Gate-1 check fails. -/
def cEmpty : Content := {}

def emptyCatalog : Catalog :=
  { getCourseById := fun _ => none, getCoursesByCategory := fun _ => [],
    getNextCourse := none }

/-- Collaborators that all fail; used where the run never (or need not)
    consult them. -/
def failingCollab : Collab :=
  { generateCourse := fun _ => .error "llm down", narrate := .error "tts down",
    presentSlides := .error "pptx down", makeThumbnail := .error "thumb down",
    render := .error "ffmpeg down", finalAssessment := .error "quiz down",
    buildCheatsheet := .error "pdf down", notify := .error "smtp down",
    fsExists := fun _ => false }

/-- Stub generator for the retry-loop scenario: scores 50, then 93. -/
def genLowThenMid : ℕ → Except String Content :=
  fun n => if n = 1 then .ok cLow else .ok cHigh

def course1 : Course := { id := "c1", title := "Course One", category := "productivity" }

def catalogOne : Catalog :=
  { getCourseById := fun i => if i = "c1" then some course1 else none,
    getCoursesByCategory := fun _ => [course1],
    getNextCourse := some course1 }

/-- Collaborators for a full run that reaches the gates: generation returns
    `cHigh`, everything downstream fails or is irrelevant. -/
def collabHigh : Collab :=
  { failingCollab with generateCourse := fun _ => .ok cHigh }

/-- A description above 200 characters that carries the AI disclosure. -/
def longDesc : String :=
  String.intercalate " " (List.replicate 3
    "This course was produced with AI assistance and careful human review of every single lesson plan before publication")

/-- `cHigh` with a Gate-1-passing description: Gate 1 passes, Gate 2 fails
    (no lecture durations, scripts under 200 words). -/
def cGate1Pass : Content :=
  let meta : CourseMetadata :=
    { title := some "Mastering Productivity Basics",
      description := some longDesc,
      objectives := some ["Understand the planning method", "Build a weekly schedule",
                          "Apply focus techniques", "Create a review habit"] }
  { cHigh with metadata := some meta }

def bigText : String :=
  String.intercalate " " (List.replicate 25
    "the plan moves forward with steady effort and clear goals today")

def bigLecture : Lecture :=
  { script := some { opening := some "Welcome to this lecture.",
                     mainContent := some [{ content := some bigText }] },
    slides := some (mkSlides2 "bullets" "chart" false), duration := some 7 }

/-- Passes Gates 1 and 2 (5 sections, 254-word lectures, 2 slides each,
    35-minute total), so the chain reaches Gate 3 when audio is declared. -/
def cGate12Pass : Content :=
  { metadata := cGate1Pass.metadata,
    sections := some (List.replicate 5
      ({ title := some "Core Skills", lectures := some [bigLecture] } : CourseSection)) }

/-- Lecture text used by `cTie`: one example word and five `you`s. -/
def tieBase : String :=
  "Here is an example of how you shape the week: you review, you refine, you rest, and you grow."

def tieSpec : String := tieBase ++ " This probably helps."

def mkTieLecture (text : String) : Lecture :=
  { script := some { opening := some "Welcome to this lecture.",
                     mainContent := some [{ content := some text }] },
    duration := some 20 }

def tieQuestion : QuizQuestion :=
  { qtype := some "multiple_choice", explanation := some "Short.",
    difficulty := some "easy" }

def tieQuiz : Quiz := { questions := some [tieQuestion] }

def mkTieSection (l : Lecture) (withQuiz : Bool) : CourseSection :=
  { title := some "Core Skills", lectures := some [l],
    quiz := if withQuiz then some tieQuiz else none }

/-- A legal artifact whose dimension scores evaluate to exactly
    (46, 85, 87, 57, 43, 70, 70): the exact weighted sum is 63.5, a rounding
    tie at which the program's float accumulation (63.49999999999999) rounds
    down while the exact formula rounds up. -/
def cTie : Content :=
  { metadata := some
      { title := some "Weekly Focus Methods",
        objectives := some ["Understand the core method", "Build the habit loop",
                            "Create a plan", "Design the system",
                            "Develop the skill", "Master the craft"] },
    sections := some
      [mkTieSection (mkTieLecture tieSpec) true,
       mkTieSection (mkTieLecture tieSpec) true,
       mkTieSection (mkTieLecture (tieSpec ++ " Research backs the approach.")) false,
       mkTieSection (mkTieLecture tieSpec) false,
       mkTieSection (mkTieLecture (tieBase ++ " Research backs the approach. It is basically routine.")) false],
    assessment := some
      { practicalAssignment := some { requirements := some ["Draft one page"] } } }

/- ═══════════ Claim theorems ═══════════════════════════════════════════ -/

/-- C3: the Quality Scorer's `passing` flag is true iff the overall score is
    at least 85 and every one of the 7 dimension scores is at least 85; in
    particular any artifact with one dimension score below 85 has
    `passing = false` regardless of the overall score. -/
theorem C3_passing_iff (c : Content) (pd : ProductionData) :
    ((evaluateCourseQuality c pd).passing = true
      ↔ (85 ≤ (evaluateCourseQuality c pd).overall
         ∧ ∀ e ∈ scoreEntries (evaluateCourseQuality c pd).scores, 85 ≤ e.2.score))
    ∧ (∀ e ∈ scoreEntries (evaluateCourseQuality c pd).scores,
        e.2.score < 85 → (evaluateCourseQuality c pd).passing = false) := by
  have hp : (evaluateCourseQuality c pd).passing
      = (decide (85 ≤ (evaluateCourseQuality c pd).overall)
         && ((scoreEntries (evaluateCourseQuality c pd).scores).filter
              (fun e => e.2.score < 85)).isEmpty) := rfl
  have hiff : (evaluateCourseQuality c pd).passing = true
      ↔ (85 ≤ (evaluateCourseQuality c pd).overall
         ∧ ∀ e ∈ scoreEntries (evaluateCourseQuality c pd).scores, 85 ≤ e.2.score) := by
    rw [hp, Bool.and_eq_true, decide_eq_true_iff, List.isEmpty_iff, List.filter_eq_nil_iff]
    simp [not_lt]
  refine ⟨hiff, fun e he hlt => ?_⟩
  rw [Bool.eq_false_iff]
  intro htrue
  exact absurd ((hiff.mp htrue).2 e he) (by omega)

/-- Witness for C3: `cLow` has its accuracy dimension at 63 < 85, so the
    theorem forces `passing = false`. -/
theorem C3_witness : (evaluateCourseQuality cLow {}).passing = false :=
  (C3_passing_iff cLow {}).2
    ("accuracy", (evaluateCourseQuality cLow {}).scores.accuracy)
    (by simp [scoreEntries]) (by decide)

theorem rubricScore100 (p : ℕ) : rubricScore p 100 = p := by
  unfold rubricScore
  omega

theorem jsRound_id100 (p : ℕ) : jsRoundNat (100 * (p : ℚ) / 100) = p := by
  have h : (100 : ℚ) * (p : ℚ) / 100 = (p : ℚ) := by field_simp
  rw [h, jsRoundNat_natCast]

/-- C4: every dimension score equals `round(100 × earned_points / max_points)`
    over its fixed rubric (`max_points = 100` for each dimension), with every
    sub-check contributing a point allotment drawn from a fixed finite set
    independent of the number of lectures — including production
    completeness, whose `min(100, 70 + …)` form coincides with the rounding
    formula because its points never exceed 100. -/
theorem C4_dimension_rubric (c : Content) (pd : ProductionData) :
    ((scoreAccuracy c).score
        = jsRoundNat (100 * ((accPtsSpeculative c + accPtsDisclosure c
            + accPtsFiller c + accPtsRefs c : ℕ) : ℚ) / 100)
      ∧ accPtsSpeculative c ∈ ([30, 22, 10] : List ℕ)
      ∧ accPtsDisclosure c ∈ ([20, 0] : List ℕ)
      ∧ accPtsFiller c ∈ ([25, 18, 8] : List ℕ)
      ∧ accPtsRefs c ∈ ([25, 18, 8] : List ℕ))
    ∧ ((scoreLearningObjectives c).score
        = jsRoundNat (100 * ((loPtsCount c + loPtsVerbs c + loPtsCoverage c : ℕ) : ℚ) / 100)
      ∧ loPtsCount c ∈ ([30, 22, 8] : List ℕ)
      ∧ loPtsVerbs c ∈ ([30, 15] : List ℕ)
      ∧ loPtsCoverage c ∈ ([40, 25, 10] : List ℕ))
    ∧ ((scoreContentStructure c).score
        = jsRoundNat (100 * ((csPtsSections c + csPtsDistribution c
            + csPtsDuration c + csPtsFlow c : ℕ) : ℚ) / 100)
      ∧ csPtsSections c ∈ ([25, 15, 5] : List ℕ)
      ∧ csPtsDistribution c ∈ ([25, 12] : List ℕ)
      ∧ csPtsDuration c ∈ ([25, 12] : List ℕ)
      ∧ csPtsFlow c ∈ ([25, 15] : List ℕ))
    ∧ ((scorePracticalApplication c).score
        = jsRoundNat (100 * ((paPtsExamples c + paPtsActionable c + paPtsAssignment c : ℕ) : ℚ) / 100)
      ∧ paPtsExamples c ∈ ([35, 22, 8] : List ℕ)
      ∧ paPtsActionable c ∈ ([30, 15] : List ℕ)
      ∧ paPtsAssignment c ∈ ([35, 20, 8] : List ℕ))
    ∧ ((scoreAssessmentQuality c).score
        = jsRoundNat (100 * ((aqPtsSectionQuizzes c + aqPtsFinal c + aqPtsTypes c : ℕ) : ℚ) / 100)
      ∧ aqPtsSectionQuizzes c ∈ ([35, 20, 8] : List ℕ)
      ∧ aqPtsFinal c ∈ ([35, 22, 18, 5] : List ℕ)
      ∧ aqPtsTypes c ∈ ([30, 18, 5] : List ℕ))
    ∧ ((scoreProductionCompleteness c pd).score
        = jsRoundNat (100 * ((70 + pcPtsSlides c + pcPtsNotes c + pcPtsCheatSheet c : ℕ) : ℚ) / 100)
      ∧ pcPtsSlides c ∈ ([15, 0] : List ℕ)
      ∧ pcPtsNotes c ∈ ([10, 0] : List ℕ)
      ∧ pcPtsCheatSheet c ∈ ([5, 0] : List ℕ))
    ∧ ((scoreEngagementClarity c).score
        = jsRoundNat (100 * ((ecPtsHooks c + ecPtsYou c + ecPtsVariety c : ℕ) : ℚ) / 100)
      ∧ ecPtsHooks c ∈ ([40, 20] : List ℕ)
      ∧ ecPtsYou c ∈ ([30, 20, 10] : List ℕ)
      ∧ ecPtsVariety c ∈ ([30, 20, 10] : List ℕ)) := by
  refine ⟨⟨?_, ?_, ?_, ?_, ?_⟩, ⟨?_, ?_, ?_, ?_⟩, ⟨?_, ?_, ?_, ?_, ?_⟩,
    ⟨?_, ?_, ?_, ?_⟩, ⟨?_, ?_, ?_, ?_⟩, ⟨?_, ?_, ?_, ?_⟩, ⟨?_, ?_, ?_, ?_⟩⟩
  case _ => rw [jsRound_id100]; exact rubricScore100 _
  case _ => simp only [accPtsSpeculative]; split_ifs <;> simp
  case _ => simp only [accPtsDisclosure]; split_ifs <;> simp
  case _ => simp only [accPtsFiller]; split_ifs <;> simp
  case _ => simp only [accPtsRefs]; split_ifs <;> simp
  case _ => rw [jsRound_id100]; exact rubricScore100 _
  case _ => simp only [loPtsCount]; split_ifs <;> simp
  case _ => simp only [loPtsVerbs]; split_ifs <;> simp
  case _ => simp only [loPtsCoverage]; split_ifs <;> simp
  case _ => rw [jsRound_id100]; exact rubricScore100 _
  case _ => simp only [csPtsSections]; split_ifs <;> simp
  case _ => simp only [csPtsDistribution]; split_ifs <;> simp
  case _ => simp only [csPtsDuration]; split_ifs <;> simp
  case _ => simp only [csPtsFlow]; split_ifs <;> simp
  case _ => rw [jsRound_id100]; exact rubricScore100 _
  case _ => simp only [paPtsExamples]; split_ifs <;> simp
  case _ => simp only [paPtsActionable]; split_ifs <;> simp
  case _ => simp only [paPtsAssignment]; split_ifs <;> simp
  case _ => rw [jsRound_id100]; exact rubricScore100 _
  case _ => simp only [aqPtsSectionQuizzes]; split_ifs <;> simp
  case _ => simp only [aqPtsFinal]; split_ifs <;> simp
  case _ => simp only [aqPtsTypes]; split_ifs <;> simp
  case _ =>
    rw [jsRound_id100]
    have hle : 70 + pcPtsSlides c + pcPtsNotes c + pcPtsCheatSheet c ≤ 100 := by
      unfold pcPtsSlides pcPtsNotes pcPtsCheatSheet
      split_ifs <;> norm_num
    exact min_eq_right hle
  case _ => simp only [pcPtsSlides]; split_ifs <;> simp
  case _ => simp only [pcPtsNotes]; split_ifs <;> simp
  case _ => simp only [pcPtsCheatSheet]; split_ifs <;> simp
  case _ => rw [jsRound_id100]; exact rubricScore100 _
  case _ => simp only [ecPtsHooks]; split_ifs <;> simp
  case _ => simp only [ecPtsYou]; split_ifs <;> simp
  case _ => simp only [ecPtsVariety]; split_ifs <;> simp

set_option maxRecDepth 1000000 in
/-- C5 counterexample: `cTie` is a reachable ContentArtifact whose dimension
    scores are (46, 85, 87, 57, 43, 70, 70).  Their exact weighted sum is
    63.5, so the claim's `round(Σ dimension.score × weight)` yields 64; but
    the program accumulates the sum in IEEE doubles, reaching
    63.49999999999999, and its overall score is 63 — refuting the claimed
    equation at a concrete input. -/
theorem C5_counterexample :
    (scoreAccuracy cTie).score = 46
    ∧ (scoreLearningObjectives cTie).score = 85
    ∧ (scoreContentStructure cTie).score = 87
    ∧ (scorePracticalApplication cTie).score = 57
    ∧ (scoreAssessmentQuality cTie).score = 43
    ∧ (scoreProductionCompleteness cTie {}).score = 70
    ∧ (scoreEngagementClarity cTie).score = 70
    ∧ (evaluateCourseQuality cTie {}).overall = 63
    ∧ jsRoundNat (weightedTotal 46 85 87 57 43 70 70) = 64 := by
  refine ⟨by decide, by decide, by decide, by decide, by decide, by decide, by decide,
    by decide, ?_⟩
  rw [← overallFromScores_eq_jsRound]
  decide

/-- C5 as amended: the overall quality score is `Math.round` of the IEEE-754
    double accumulation of the 7 dimension scores times the documented
    weights (`overallFloat`), not of the exact weighted sum — at reachable
    float ties the two rounds differ by one (`C5_counterexample`).  The
    documented weights sum to 1; the exact reference formula
    `overallFromScores` equals `round(Σ dimension.score × weight)`; and
    changing any single dimension's score while the others are fixed changes
    the exact pre-rounding weighted sum by exactly `Δ × weight`, rounded by
    the same rule. -/
theorem C5_float_weighted_overall :
    (∀ (c : Content) (pd : ProductionData), (evaluateCourseQuality c pd).overall
        = overallFloat (scoreAccuracy c).score (scoreLearningObjectives c).score
            (scoreContentStructure c).score (scorePracticalApplication c).score
            (scoreAssessmentQuality c).score (scoreProductionCompleteness c pd).score
            (scoreEngagementClarity c).score)
    ∧ WEIGHTS.accuracy + WEIGHTS.learningObjectives + WEIGHTS.contentStructure
        + WEIGHTS.practicalApplication + WEIGHTS.assessmentQuality
        + WEIGHTS.productionCompleteness + WEIGHTS.engagementClarity = 1
    ∧ (∀ a lo cs pa aq pc ec : ℕ, overallFromScores a lo cs pa aq pc ec
        = jsRoundNat (weightedTotal a lo cs pa aq pc ec))
    ∧ (∀ a a2 lo cs pa aq pc ec : ℕ, overallFromScores a2 lo cs pa aq pc ec
        = jsRoundNat (weightedTotal a lo cs pa aq pc ec
            + ((a2 : ℚ) - (a : ℚ)) * WEIGHTS.accuracy))
    ∧ (∀ a lo lo2 cs pa aq pc ec : ℕ, overallFromScores a lo2 cs pa aq pc ec
        = jsRoundNat (weightedTotal a lo cs pa aq pc ec
            + ((lo2 : ℚ) - (lo : ℚ)) * WEIGHTS.learningObjectives))
    ∧ (∀ a lo cs cs2 pa aq pc ec : ℕ, overallFromScores a lo cs2 pa aq pc ec
        = jsRoundNat (weightedTotal a lo cs pa aq pc ec
            + ((cs2 : ℚ) - (cs : ℚ)) * WEIGHTS.contentStructure))
    ∧ (∀ a lo cs pa pa2 aq pc ec : ℕ, overallFromScores a lo cs pa2 aq pc ec
        = jsRoundNat (weightedTotal a lo cs pa aq pc ec
            + ((pa2 : ℚ) - (pa : ℚ)) * WEIGHTS.practicalApplication))
    ∧ (∀ a lo cs pa aq aq2 pc ec : ℕ, overallFromScores a lo cs pa aq2 pc ec
        = jsRoundNat (weightedTotal a lo cs pa aq pc ec
            + ((aq2 : ℚ) - (aq : ℚ)) * WEIGHTS.assessmentQuality))
    ∧ (∀ a lo cs pa aq pc pc2 ec : ℕ, overallFromScores a lo cs pa aq pc2 ec
        = jsRoundNat (weightedTotal a lo cs pa aq pc ec
            + ((pc2 : ℚ) - (pc : ℚ)) * WEIGHTS.productionCompleteness))
    ∧ (∀ a lo cs pa aq pc ec ec2 : ℕ, overallFromScores a lo cs pa aq pc ec2
        = jsRoundNat (weightedTotal a lo cs pa aq pc ec
            + ((ec2 : ℚ) - (ec : ℚ)) * WEIGHTS.engagementClarity)) := by
  refine ⟨fun c pd => rfl, by norm_num [WEIGHTS], overallFromScores_eq_jsRound,
    ?_, ?_, ?_, ?_, ?_, ?_, ?_⟩
  all_goals
    intro a lo cs pa aq pc ec ec2
    rw [overallFromScores_eq_jsRound]
    congr 1
    simp only [weightedTotal, WEIGHTS]
    ring

theorem gateCurriculum_passed_eq (c : Content) :
    (gateCurriculum c).passed
      = (g1TitleOk c && g1DescriptionOk c && g1ObjectivesOk c
         && g1SectionsOk c && g1LecturesOk c) := by
  unfold gateCurriculum
  cases h1 : g1TitleOk c <;> cases h2 : g1DescriptionOk c <;> cases h3 : g1ObjectivesOk c
    <;> cases h4 : g1SectionsOk c <;> cases h5 : g1LecturesOk c
    <;> simp [h1, h2, h3, h4, h5]

theorem gateCurriculum_failures_names (c : Content) :
    (gateCurriculum c).failures.map GateFailure.name
      = (if g1TitleOk c then [] else ["Title"])
        ++ (if g1DescriptionOk c then [] else ["Description"])
        ++ (if g1ObjectivesOk c then [] else ["Objectives"])
        ++ (if g1SectionsOk c then [] else ["Sections"])
        ++ (if g1LecturesOk c then [] else ["Lectures"]) := by
  unfold gateCurriculum
  cases h1 : g1TitleOk c <;> cases h2 : g1DescriptionOk c <;> cases h3 : g1ObjectivesOk c
    <;> cases h4 : g1SectionsOk c <;> cases h5 : g1LecturesOk c
    <;> simp [h1, h2, h3, h4, h5]

/-- C7: an artifact with fewer than 5 sections or fewer than 5 total
    lectures fails Gate 1, and the failure list names exactly the deficient
    checks among Title, Description, Objectives, Sections and Lectures —
    every check runs independently. -/
theorem C7_gate1_all_failures (c : Content) :
    ((c.sectionsD.length < 5 ∨ lectureCount c < 5) → (gateCurriculum c).passed = false)
    ∧ (gateCurriculum c).failures.map GateFailure.name
      = (if g1TitleOk c then [] else ["Title"])
        ++ (if g1DescriptionOk c then [] else ["Description"])
        ++ (if g1ObjectivesOk c then [] else ["Objectives"])
        ++ (if g1SectionsOk c then [] else ["Sections"])
        ++ (if g1LecturesOk c then [] else ["Lectures"]) := by
  refine ⟨fun h => ?_, gateCurriculum_failures_names c⟩
  rw [gateCurriculum_passed_eq]
  rcases h with h | h
  · have hs : g1SectionsOk c = false := by
      simp only [g1SectionsOk, decide_eq_false_iff_not]
      omega
    simp [hs]
  · have hl : g1LecturesOk c = false := by
      simp only [g1LecturesOk, decide_eq_false_iff_not]
      omega
    simp [hl]

/-- Witness for C7: `cLow` (1 section) fails Gate 1 and its failure list
    names all four deficient checks, not just the first. -/
theorem C7_witness :
    (gateCurriculum cLow).passed = false
    ∧ (gateCurriculum cLow).failures.map GateFailure.name
      = ["Title", "Description", "Objectives", "Sections"] :=
  ⟨(C7_gate1_all_failures cLow).1 (Or.inl (by decide)),
   by rw [(C7_gate1_all_failures cLow).2]; decide⟩

theorem foldl_add_init {α : Type} (f : α → ℕ) (l : List α) (n : ℕ) :
    l.foldl (fun s a => s + f a) n = n + l.foldl (fun s a => s + f a) 0 := by
  induction l generalizing n with
  | nil => simp
  | cons x xs ih =>
    rw [List.foldl_cons, List.foldl_cons, ih (n + f x), ih (0 + f x)]
    omega

theorem foldl_sum_eq_zero {α : Type} (f : α → ℕ) (l : List α)
    (h : l.foldl (fun s a => s + f a) 0 = 0) : ∀ a ∈ l, f a = 0 := by
  induction l with
  | nil => simp
  | cons x xs ih =>
    rw [List.foldl_cons, foldl_add_init] at h
    intro a ha
    rcases List.mem_cons.mp ha with rfl | ha2
    · omega
    · exact ih (by omega) a ha2

theorem foldl_id_of_no_lectures {β : Type} (l : List CourseSection)
    (h : ∀ sec ∈ l, sec.lectures.getD [] = [])
    (g : β → Lecture → β) (acc : β) :
    l.foldl (fun a sec => (sec.lectures.getD []).foldl g a) acc = acc := by
  induction l generalizing acc with
  | nil => rfl
  | cons x xs ih =>
    rw [List.foldl_cons, h x (List.mem_cons_self x xs)]
    exact ih (fun s hs => h s (List.mem_cons_of_mem x hs)) acc

theorem gateLecturesScan_zero (c : Content) (h : lectureCount c = 0) :
    gateLecturesScan c = (0, 0) := by
  have h2 : c.sectionsD.foldl (fun s sec => s + (sec.lectures.getD []).length) 0 = 0 := h
  have hsec : ∀ sec ∈ c.sectionsD, sec.lectures.getD [] = [] := by
    intro sec hs
    have := foldl_sum_eq_zero (fun sec => (sec.lectures.getD []).length) c.sectionsD h2 sec hs
    exact List.length_eq_zero.mp this
  unfold gateLecturesScan
  exact foldl_id_of_no_lectures c.sectionsD hsec _ _

/-- C10: for an artifact whose sections hold zero lectures in total, Gate 2
    records its lecture-quality check as passing (the 0/0 defect ratio is
    NaN in JS, and every NaN comparison is false), so the gate's only
    failure entry — and its reason for rejecting — is the duration check. -/
theorem C10_gate2_zero_lectures (c : Content) (h : lectureCount c = 0) :
    (gateLectures c).checks.map GateCheck.name = ["Quality"]
    ∧ (gateLectures c).failures.map GateFailure.name = ["Duration"]
    ∧ (gateLectures c).passed = false := by
  have hscan := gateLecturesScan_zero c h
  refine ⟨?_, ?_, ?_⟩ <;> simp [gateLectures, hscan, h]

/-- Witness for C10: a one-section artifact with no lectures. -/
theorem C10_witness :
    (gateLectures cNoLectures).checks.map GateCheck.name = ["Quality"]
    ∧ (gateLectures cNoLectures).failures.map GateFailure.name = ["Duration"]
    ∧ (gateLectures cNoLectures).passed = false :=
  C10_gate2_zero_lectures cNoLectures (by decide)

/-- C6: the gate chain evaluates the four gates strictly in order and stops
    at the first failing gate — the skipped later gates are absent from the
    chain output and `failedAt` records the aborting gate's number. -/
theorem C6_gate_chain_short_circuit (fs : String → Bool) (c : Content) (pd : ProductionData) :
    ((gateCurriculum c).passed = false →
      (runAllGates fs c pd).gates.lectures = none
      ∧ (runAllGates fs c pd).gates.video = none
      ∧ (runAllGates fs c pd).gates.finalAssembly = none
      ∧ (runAllGates fs c pd).failedAt = some 1
      ∧ (runAllGates fs c pd).passed = false)
    ∧ ((gateCurriculum c).passed = true → (gateLectures c).passed = false →
      (runAllGates fs c pd).gates.video = none
      ∧ (runAllGates fs c pd).gates.finalAssembly = none
      ∧ (runAllGates fs c pd).failedAt = some 2
      ∧ (runAllGates fs c pd).passed = false)
    ∧ ((gateCurriculum c).passed = true → (gateLectures c).passed = true →
      (pd.audioFiles.length ≠ 0 ∨ pd.videoFiles.length ≠ 0) →
      (gateVideo fs pd).passed = false →
      (runAllGates fs c pd).gates.finalAssembly = none
      ∧ (runAllGates fs c pd).failedAt = some 3
      ∧ (runAllGates fs c pd).passed = false)
    ∧ ((gateCurriculum c).passed = true → (gateLectures c).passed = true →
      ((pd.audioFiles.length ≠ 0 ∨ pd.videoFiles.length ≠ 0) → (gateVideo fs pd).passed = true) →
      (gateFinalAssembly c pd).passed = false →
      (runAllGates fs c pd).failedAt = some 4
      ∧ (runAllGates fs c pd).passed = false) := by
  refine ⟨fun h1 => ?_, fun h1 h2 => ?_, fun h1 h2 h3 h4 => ?_, fun h1 h2 h3 h4 => ?_⟩
  · simp [runAllGates, h1]
  · simp [runAllGates, h1, h2]
  · have hc : ¬pd.audioFiles = [] ∨ ¬pd.videoFiles = [] := by
      simpa using h3
    simp [runAllGates, h1, h2, hc, h4]
  · by_cases hc : ¬pd.audioFiles = [] ∨ ¬pd.videoFiles = []
    · have hg3 : (gateVideo fs pd).passed = true := h3 (by simpa using hc)
      simp [runAllGates, h1, h2, hc, hg3, h4]
    · simp [runAllGates, h1, h2, hc, h4]

set_option maxRecDepth 100000 in
/-- Witness for C6: the empty artifact aborts at Gate 1 with Gates 2-4
    absent; `cGate1Pass` aborts at Gate 2 with Gates 3-4 absent; and with
    declared audio whose files are missing, `cGate12Pass` aborts at Gate 3
    with Gate 4 absent. -/
theorem C6_witness :
    ((runAllGates (fun _ => false) cEmpty {}).gates.lectures = none
      ∧ (runAllGates (fun _ => false) cEmpty {}).gates.video = none
      ∧ (runAllGates (fun _ => false) cEmpty {}).gates.finalAssembly = none
      ∧ (runAllGates (fun _ => false) cEmpty {}).failedAt = some 1
      ∧ (runAllGates (fun _ => false) cEmpty {}).passed = false)
    ∧ ((runAllGates (fun _ => false) cGate1Pass {}).gates.video = none
      ∧ (runAllGates (fun _ => false) cGate1Pass {}).gates.finalAssembly = none
      ∧ (runAllGates (fun _ => false) cGate1Pass {}).failedAt = some 2
      ∧ (runAllGates (fun _ => false) cGate1Pass {}).passed = false)
    ∧ ((runAllGates (fun _ => false) cGate12Pass
          { audioFiles := ["lecture1.wav"] }).gates.finalAssembly = none
      ∧ (runAllGates (fun _ => false) cGate12Pass
          { audioFiles := ["lecture1.wav"] }).failedAt = some 3
      ∧ (runAllGates (fun _ => false) cGate12Pass
          { audioFiles := ["lecture1.wav"] }).passed = false) :=
  ⟨(C6_gate_chain_short_circuit (fun _ => false) cEmpty {}).1 (by decide),
   (C6_gate_chain_short_circuit (fun _ => false) cGate1Pass {}).2.1 (by decide) (by decide),
   (C6_gate_chain_short_circuit (fun _ => false) cGate12Pass
      { audioFiles := ["lecture1.wav"] }).2.2.1 (by decide) (by decide)
      (Or.inl (by decide)) (by decide)⟩

/-- C2 counterexample: `cLow` (one section holding five lectures) passes the
    retry loop's structural check, yet Gate 1 rejects it, naming its
    Sections check — so the two checkpoints do not accept the same set of
    artifacts on structural grounds. -/
theorem C2_counterexample :
    loopStructuralOk cLow = true
    ∧ "Sections" ∈ (gateCurriculum cLow).failures.map GateFailure.name
    ∧ (gateCurriculum cLow).passed = false := by
  refine ⟨by decide, by decide, by decide⟩

/-- C2 as amended: the retry loop checks only the total-lecture half of the
    invariant, so Gate 1's structural predicate is the stronger one — any
    artifact clearing Gate 1's Sections and Lectures checks clears the
    loop's check (but not conversely, per the counterexample). -/
theorem C2_amended_structural (c : Content)
    (_hs : "Sections" ∉ (gateCurriculum c).failures.map GateFailure.name)
    (hl : "Lectures" ∉ (gateCurriculum c).failures.map GateFailure.name) :
    loopStructuralOk c = true := by
  rw [gateCurriculum_failures_names c] at hl
  have h5 : 5 ≤ lectureCount c := by
    by_contra hlt
    apply hl
    have hfail : g1LecturesOk c = false := by
      simp only [g1LecturesOk, decide_eq_false_iff_not]
      omega
    simp [hfail]
  simp only [loopStructuralOk, Bool.not_eq_true']
  simp only [decide_eq_false_iff_not]
  omega

/-- Witness for C2's amended theorem at `cHigh`, whose Gate-1 failures are
    only its short description. -/
theorem C2_amended_witness : loopStructuralOk cHigh = true :=
  C2_amended_structural cHigh (by decide) (by decide)

theorem scriptLoopAux_step_low (gen : ℕ → Except String Content)
    (fuel attempts qs : ℕ) (errs : List String) (cc : Content)
    (hg : gen (attempts + 1) = .ok cc) (hs : loopStructuralOk cc = true)
    (hq : (evaluateCourseQuality cc {}).overall < CONFIG_quality_minimum) :
    scriptLoopAux gen (fuel + 1) attempts qs errs
      = scriptLoopAux gen fuel (attempts + 1)
          ((evaluateCourseQuality cc {}).overall) errs := by
  have h95 : ¬ (CONFIG_quality_target ≤ (evaluateCourseQuality cc {}).overall) := by
    simp only [CONFIG_quality_target]
    simp only [CONFIG_quality_minimum] at hq
    omega
  have h85 : ¬ (CONFIG_quality_minimum ≤ (evaluateCourseQuality cc {}).overall
      ∧ CONFIG_maxRetries ≤ attempts + 1) := by
    simp only [CONFIG_quality_minimum] at hq ⊢
    omega
  simp only [scriptLoopAux, hg, hs, Bool.not_true, Bool.false_eq_true, if_false,
    if_neg h95, if_neg h85, if_pos hq]

theorem scriptLoopAux_accept (gen : ℕ → Except String Content)
    (fuel attempts qs : ℕ) (errs : List String) (cc : Content)
    (hg : gen (attempts + 1) = .ok cc) (hs : loopStructuralOk cc = true)
    (hq : CONFIG_quality_minimum ≤ (evaluateCourseQuality cc {}).overall) :
    scriptLoopAux gen (fuel + 1) attempts qs errs
      = (some cc, attempts + 1, (evaluateCourseQuality cc {}).overall, errs) := by
  by_cases h95 : CONFIG_quality_target ≤ (evaluateCourseQuality cc {}).overall
  · simp only [scriptLoopAux, hg, hs, Bool.not_true, Bool.false_eq_true, if_false, if_pos h95]
  · have hlow : ¬ ((evaluateCourseQuality cc {}).overall < CONFIG_quality_minimum) := by
      omega
    by_cases hmid : CONFIG_quality_minimum ≤ (evaluateCourseQuality cc {}).overall
        ∧ CONFIG_maxRetries ≤ attempts + 1
    · simp only [scriptLoopAux, hg, hs, Bool.not_true, Bool.false_eq_true, if_false,
        if_neg h95, if_pos hmid]
    · simp only [scriptLoopAux, hg, hs, Bool.not_true, Bool.false_eq_true, if_false,
        if_neg h95, if_neg hmid, if_neg hlow]

/-- C1 as amended: the GENERATE retry loop is bounded at `maxRetries = 3`,
    but a structurally valid result scoring at least MINIMUM (85) is
    accepted immediately on any attempt — reaching TARGET (95) is not
    required for an early exit — while attempts that stay below MINIMUM are
    retried, and three such attempts end with no content after exactly 3
    attempts (the state that makes the run fail fatally). -/
theorem C1_amended_retry (gen : ℕ → Except String Content) :
    (∀ cc : Content, gen 1 = .ok cc → loopStructuralOk cc = true →
      CONFIG_quality_minimum ≤ (evaluateCourseQuality cc {}).overall →
      scriptLoop gen = (some cc, 1, (evaluateCourseQuality cc {}).overall, []))
    ∧ ((∀ n, 1 ≤ n → n ≤ CONFIG_maxRetries →
        ∃ cc : Content, gen n = .ok cc ∧ loopStructuralOk cc = true
          ∧ (evaluateCourseQuality cc {}).overall < CONFIG_quality_minimum) →
      (scriptLoop gen).1 = none ∧ (scriptLoop gen).2.1 = CONFIG_maxRetries) := by
  constructor
  · intro cc h1 hstruct hq
    show scriptLoopAux gen (2 + 1) 0 0 [] = _
    exact scriptLoopAux_accept gen 2 0 0 [] cc h1 hstruct hq
  · intro h
    obtain ⟨c1, hg1, hs1, hq1⟩ := h 1 (by norm_num) (by norm_num [CONFIG_maxRetries])
    obtain ⟨c2, hg2, hs2, hq2⟩ := h 2 (by norm_num) (by norm_num [CONFIG_maxRetries])
    obtain ⟨c3, hg3, hs3, hq3⟩ := h 3 (by norm_num) (by norm_num [CONFIG_maxRetries])
    have hrun : scriptLoop gen = (none, 3, (evaluateCourseQuality c3 {}).overall, []) := by
      show scriptLoopAux gen (2 + 1) 0 0 [] = _
      rw [scriptLoopAux_step_low gen 2 0 0 [] c1 hg1 hs1 hq1]
      rw [scriptLoopAux_step_low gen 1 1 _ [] c2 hg2 hs2 hq2]
      rw [scriptLoopAux_step_low gen 0 2 _ [] c3 hg3 hs3 hq3]
      rfl
    rw [hrun]
    exact ⟨rfl, rfl⟩

set_option maxRecDepth 100000 in
/-- C1 counterexample: with the stub generator scoring 50 then 93, the loop
    accepts the second result — whose score 93 lies in `[MINIMUM, TARGET)` —
    with an attempt count of 2, before the attempt budget is exhausted,
    refuting acceptance of such scores "only when all attempts are
    exhausted" (and hence the claimed `attempts == 3` outcome). -/
theorem C1_counterexample :
    scriptLoop genLowThenMid = (some cHigh, 2, 93, [])
    ∧ CONFIG_quality_minimum ≤ 93 ∧ 93 < CONFIG_quality_target ∧ 2 < CONFIG_maxRetries := by
  refine ⟨by decide, by decide, by decide, by decide⟩

set_option maxRecDepth 100000 in
/-- Witness for C1's amended theorem: a generator always returning the
    93-scoring `cHigh` is accepted at attempt 1; one always returning the
    50-scoring `cLow` exhausts all 3 attempts with no content. -/
theorem C1_amended_witness :
    scriptLoop (fun _ => .ok cHigh)
      = (some cHigh, 1, (evaluateCourseQuality cHigh {}).overall, [])
    ∧ (scriptLoop (fun _ => .ok cLow)).1 = none
    ∧ (scriptLoop (fun _ => .ok cLow)).2.1 = CONFIG_maxRetries :=
  ⟨(C1_amended_retry (fun _ => .ok cHigh)).1 cHigh rfl (by decide) (by decide),
   (C1_amended_retry (fun _ => .ok cLow)).2
     (fun _n _h1 _h3 => ⟨cLow, rfl, by decide, by decide⟩)⟩

/-- C8 as amended: a SELECT failure is fatal — no stage runs, no catalog
    status is written — but it does not propagate out of the run: the
    run-level catch converts it, like every other uncaught error, into
    `RunResult.errors` with `success = false`, and `orchestrate` returns an
    ordinary RunResult to its caller. -/
theorem C8_amended_select_caught (cat : Catalog) (col : Collab) (opts : OrchOptions)
    (e : String) (h : selectCourse cat opts = .error e) :
    orchestrate cat col opts
      = { result := { success := false, errors := [e] }, statusUpdates := [] } := by
  unfold orchestrate
  rw [h]

/-- C8 counterexample: on a missing catalog entry the run returns a normal
    RunResult — `success = false`, the message recorded as data, every stage
    outcome absent — rather than letting any exception escape. -/
theorem C8_counterexample :
    orchestrate emptyCatalog failingCollab { courseId := some "missing" }
      = { result := { success := false, errors := ["Course not found: missing"] },
          statusUpdates := [] } := by
  rfl

/-- Witness for C8's amended theorem at a second missing id. -/
theorem C8_amended_witness :
    orchestrate emptyCatalog failingCollab { courseId := some "nope" }
      = { result := { success := false, errors := ["Course not found: nope"] },
          statusUpdates := [] } :=
  C8_amended_select_caught emptyCatalog failingCollab { courseId := some "nope" } _ rfl

theorem stageNarrator_course (col : Collab) (s : PipeState) :
    (stageNarrator col s).course = s.course := by
  unfold stageNarrator
  cases col.narrate <;> rfl

theorem stageSlideforge_course (col : Collab) (s : PipeState) :
    (stageSlideforge col s).course = s.course := by
  unfold stageSlideforge
  cases col.presentSlides <;> cases col.makeThumbnail <;> rfl

theorem stageRenderer_course (col : Collab) (s : PipeState) :
    (stageRenderer col s).course = s.course := by
  unfold stageRenderer
  split
  · cases col.render <;> rfl
  · rfl

theorem stageQuiz_course (col : Collab) (s : PipeState) :
    (stageQuiz col s).course = s.course := by
  unfold stageQuiz
  split
  · rfl
  · cases col.finalAssessment <;> rfl

theorem stageCheatsheet_course (col : Collab) (s : PipeState) :
    (stageCheatsheet col s).course = s.course := by
  unfold stageCheatsheet
  cases col.buildCheatsheet <;> rfl

theorem pipeline_success_spec (col : Collab) (s0 : PipeState) :
    (finishRun col (stageCheatsheet col (stageQuiz col (stageRenderer col
        (stageSlideforge col (stageNarrator col s0)))))).result.success = true
    ∧ ∃ v, (finishRun col (stageCheatsheet col (stageQuiz col (stageRenderer col
          (stageSlideforge col (stageNarrator col s0)))))).result.stages.validator = some v
        ∧ (finishRun col (stageCheatsheet col (stageQuiz col (stageRenderer col
            (stageSlideforge col (stageNarrator col s0)))))).statusUpdates
          = [(s0.course.id, "in_progress"),
             (s0.course.id, if v.success then "completed" else "needs_review")] := by
  have hc : (stageCheatsheet col (stageQuiz col (stageRenderer col
      (stageSlideforge col (stageNarrator col s0))))).course = s0.course := by
    rw [stageCheatsheet_course, stageQuiz_course, stageRenderer_course,
      stageSlideforge_course, stageNarrator_course]
  refine ⟨rfl, ⟨_, rfl, ?_⟩⟩
  rw [show (finishRun col (stageCheatsheet col (stageQuiz col (stageRenderer col
      (stageSlideforge col (stageNarrator col s0)))))).statusUpdates
    = [((stageCheatsheet col (stageQuiz col (stageRenderer col
        (stageSlideforge col (stageNarrator col s0))))).course.id, "in_progress"),
       ((stageCheatsheet col (stageQuiz col (stageRenderer col
        (stageSlideforge col (stageNarrator col s0))))).course.id,
        if (runAllGates col.fsExists (stageCheatsheet col (stageQuiz col (stageRenderer col
          (stageSlideforge col (stageNarrator col s0))))).content
            { audioFiles := narratorAudioFiles (stageCheatsheet col (stageQuiz col (stageRenderer col
                (stageSlideforge col (stageNarrator col s0))))),
              videoFiles := rendererVideoFiles (stageCheatsheet col (stageQuiz col (stageRenderer col
                (stageSlideforge col (stageNarrator col s0))))) }).passed
        then "completed" else "needs_review")] from rfl]
  rw [hc]

/-- C9: whenever SELECT resolves a course and the GENERATE loop yields
    content, the run's terminal `success` flag is true regardless of the
    quality-gate outcome; the catalog receives `in_progress` followed by
    `completed` when the recorded validator stage succeeded and
    `needs_review` when it failed — so `success` records pipeline
    completion, not quality passing. -/
theorem C9_success_despite_gate_failure (cat : Catalog) (col : Collab) (opts : OrchOptions)
    (course : Course) (c0 : Content) (attempts qs : ℕ) (errs : List String)
    (hsel : selectCourse cat opts = .ok course)
    (hgen : scriptLoop col.generateCourse = (some c0, attempts, qs, errs)) :
    (orchestrate cat col opts).result.success = true
    ∧ ∃ v, (orchestrate cat col opts).result.stages.validator = some v
        ∧ (orchestrate cat col opts).statusUpdates
            = [(course.id, "in_progress"),
               (course.id, if v.success then "completed" else "needs_review")] := by
  unfold orchestrate
  rw [hsel, hgen]
  exact pipeline_success_spec col _

set_option maxRecDepth 100000 in
/-- Witness for C9: a run over `cHigh` whose gate chain fails at Gate 1
    (short description) still ends with `success = true` and a terminal
    catalog status drawn from the validator outcome. -/
theorem C9_witness :
    (orchestrate catalogOne collabHigh {}).result.success = true
    ∧ ∃ v, (orchestrate catalogOne collabHigh {}).result.stages.validator = some v
        ∧ (orchestrate catalogOne collabHigh {}).statusUpdates
            = [(course1.id, "in_progress"),
               (course1.id, if v.success then "completed" else "needs_review")] :=
  C9_success_despite_gate_failure catalogOne collabHigh {} course1 cHigh 1 93 [] rfl
    (by decide)
